import Mathlib

set_option autoImplicit false

/-!
# Evil-Manager: the validation engine of `src/Forms.jsx`

A shallow embedding of the `DynamicForm` component's logic: the field schema
`fieldConfigs`, the per-field validator `validateField`, and the two event
handlers `handleChange` and `handleSubmit`.

Modelling conventions.

* A JavaScript value is a `JSVal`: `undefined`, `null`, a boolean, a number or
  a string.  A number is `NaN`, an infinity, or a finite value taken in `ℚ`
  (every finite double is a rational, `-0` and `0` compare equal, and the code
  only compares numbers, it never does arithmetic on a value).
* A string is a Lean `String` (a sequence of code points, so without lone
  surrogates); `.length` counts UTF-16 code units, as JavaScript does.
* A plain object (`formData`, `errors`) is an association list in insertion
  order; reading an absent key gives `undefined` (no key names a property
  inherited from `Object.prototype`).
* The rule constants (`minLength`, `maxLength`, `min`, `max`) are numbers.
  Interpolating a number in a template literal prints the decimal numeral of
  a safe integer (at most 2^53 in absolute value), `NaN` and the infinities
  by name, and what the runtime gives for every other number.
* A regular expression without flags is used only through `test`, so a
  pattern is the predicate `String → Bool` it decides.
* What the code takes from the runtime is an `Env`: the current local date,
  the date parser (`none` for an invalid date), and the conversion to a
  string of a finite number that is not a safe integer.
-/

namespace DynamicForm

/-! ## JavaScript values -/

/-- A JavaScript number: `NaN`, the two infinities, or a finite value. -/
inductive JSNum where
  | nan
  | negInf
  | fin (q : ℚ)
  | posInf
  deriving DecidableEq

namespace JSNum

/-- The global `isNaN` on a number. -/
def isNaN : JSNum → Bool
  | nan => true
  | _ => false

/-- The relational operator `a < b` on numbers (false when either is `NaN`). -/
def lt : JSNum → JSNum → Bool
  | nan, _ => false
  | _, nan => false
  | negInf, negInf => false
  | negInf, _ => true
  | fin _, negInf => false
  | fin a, fin b => decide (a < b)
  | fin _, posInf => true
  | posInf, _ => false

/-- The relational operator `a > b` on numbers. -/
def gt (a b : JSNum) : Bool := lt b a

/-- Strict equality `a === b` on numbers (`NaN` is not equal to itself). -/
def strictEq : JSNum → JSNum → Bool
  | nan, _ => false
  | _, nan => false
  | a, b => decide (a = b)

/-- An integer constant of the source as a number. -/
def ofInt (n : Int) : JSNum := fin (n : ℚ)

/-- Truthiness of a number: neither `NaN` nor zero. -/
def truthy : JSNum → Bool
  | nan => false
  | fin q => decide (q ≠ 0)
  | _ => true

end JSNum

/-- A JavaScript value, as far as the form handles them. -/
inductive JSVal where
  | undefined
  | null
  | bool (b : Bool)
  | num (n : JSNum)
  | str (s : String)
  deriving DecidableEq

namespace JSVal

/-- Truthiness (`ToBoolean`), as used by `!value`, `value && ...`. -/
def truthy : JSVal → Bool
  | undefined => false
  | null => false
  | bool b => b
  | num n => n.truthy
  | str s => decide (s ≠ "")

/-- Strict equality `a === b`. -/
def strictEq : JSVal → JSVal → Bool
  | undefined, undefined => true
  | null, null => true
  | bool a, bool b => decide (a = b)
  | num a, num b => JSNum.strictEq a b
  | str a, str b => decide (a = b)
  | _, _ => false

end JSVal

/-! ## Strings -/

/-- The characters `String.prototype.trim` strips and `\s` matches:
    WhiteSpace and LineTerminator of ECMAScript. -/
def isJSWhitespace (c : Char) : Bool :=
  let n := c.toNat
  n = 0x09 || n = 0x0A || n = 0x0B || n = 0x0C || n = 0x0D || n = 0x20 ||
  n = 0xA0 || n = 0x1680 || (0x2000 ≤ n && n ≤ 0x200A) || n = 0x2028 ||
  n = 0x2029 || n = 0x202F || n = 0x205F || n = 0x3000 || n = 0xFEFF

/-- Trimming on the list of characters: strip whitespace at both ends. -/
def trimChars (cs : List Char) : List Char :=
  ((cs.dropWhile isJSWhitespace).reverse.dropWhile isJSWhitespace).reverse

/-- The method `value.trim()`. -/
def jsTrim (s : String) : String := ⟨trimChars s.data⟩

/-- Number of UTF-16 code units of one code point. -/
def utf16Units (c : Char) : Nat := if c.toNat < 0x10000 then 1 else 2

/-- The property `s.length`: the number of UTF-16 code units. -/
def jsLength (s : String) : Nat := (s.data.map utf16Units).sum

/-! ## Objects -/

/-- A plain object with string keys, in insertion order. -/
abbrev JSObj (α : Type) := List (String × α)

namespace JSObj

/-- Own-property lookup `obj[k]`; `none` stands for an absent key. -/
def get? {α : Type} : JSObj α → String → Option α
  | [], _ => none
  | (k, v) :: rest, key => if k = key then some v else get? rest key

/-- Assignment `obj[k] = v`: overwrite in place, or append a new key. -/
def set {α : Type} : JSObj α → String → α → JSObj α
  | [], key, v => [(key, v)]
  | (k, w) :: rest, key, v =>
    if k = key then (k, v) :: rest else (k, w) :: set rest key v

/-- The keys of the object, in insertion order. -/
def keys {α : Type} (o : JSObj α) : List String := o.map Prod.fst

end JSObj

/-- The value-set `formData`. -/
abbrev FormData := JSObj JSVal

/-- The error-set `errors`. -/
abbrev Errors := JSObj String

/-- Property read `formData[k]`: an absent key reads as `undefined`. -/
def FormData.read (fd : FormData) (k : String) : JSVal :=
  (JSObj.get? fd k).getD JSVal.undefined

/-! ## The runtime's dates -/

/-- The local calendar fields of a `Date`: `getFullYear()`, `getMonth()`,
    `getDate()`. -/
structure LocalDate where
  year : Int
  month : Int
  day : Int
  deriving DecidableEq

/-- The characters of the string of a finite number: digits, the decimal
    point, the exponent mark and the signs. -/
def isNumeralChar (c : Char) : Bool :=
  ('0' ≤ c && c ≤ '9') || c = '.' || c = 'e' || c = '+' || c = '-'

/-- What the code takes from the runtime: the current date (`new Date()`),
    the parser `new Date(s)` (`none` when `getTime()` is `NaN`), and
    `Number::toString` on the finite numbers that are not safe integers
    (fractions, and magnitudes above 2^53, where the shortest digits that
    round to the double are printed, in exponent form from 1e21 on), which
    gives numeral characters only. -/
structure Env where
  today : LocalDate
  parseDate : String → Option LocalDate
  finiteToString : ℚ → String
  finiteToString_chars : ∀ q, (finiteToString q).data.all isNumeralChar = true

/-- The largest magnitude 2^53 up to which every integer is a double. -/
def maxExactInt : Nat := 9007199254740992

/-- The conversion `Number::toString`, as a template literal `${n}` and the
    concatenation `n + '...'` apply it: `NaN` and the infinities by name, an
    integer up to 2^53 in absolute value as its decimal numeral, any other
    number as the runtime prints it. -/
def numberToString (env : Env) : JSNum → String
  | JSNum.nan => "NaN"
  | JSNum.negInf => "-Infinity"
  | JSNum.posInf => "Infinity"
  | JSNum.fin q =>
    if q.den = 1 ∧ q.num.natAbs ≤ maxExactInt then toString q.num else env.finiteToString q

/-- String concatenation operand `value + '...'` (`ToString` of the value). -/
def jsToString (env : Env) : JSVal → String
  | JSVal.undefined => "undefined"
  | JSVal.null => "null"
  | JSVal.bool true => "true"
  | JSVal.bool false => "false"
  | JSVal.num n => numberToString env n
  | JSVal.str s => s

/-! ## The field schema -/

/-- The `rules` of a descriptor; `none` is an absent (`undefined`) rule. -/
structure Rules where
  required : Bool
  minLength : Option JSNum := none
  maxLength : Option JSNum := none
  pattern : Option (String → Bool) := none
  min : Option JSNum := none
  max : Option JSNum := none

/-- One entry of `fieldConfigs`.  A custom validator returns `none` for
    `null`. -/
structure FieldConfig where
  key : String
  label : String
  component : String
  type : Option String := none
  rules : Rules
  customValidator : Option (FormData → JSVal → Option String) := none
  options : Option (List String) := none

/-! ## The patterns of the default schema -/

/-- The class `\d`. -/
def isDigit (c : Char) : Bool := '0' ≤ c && c ≤ '9'

/-- The class `[^\s@]`. -/
def isAddrChar (c : Char) : Bool := !isJSWhitespace c && c != '@'

/-- The class `[a-zA-Z0-9_]`. -/
def isWordChar (c : Char) : Bool :=
  ('a' ≤ c && c ≤ 'z') || ('A' ≤ c && c ≤ 'Z') || ('0' ≤ c && c ≤ '9') || c = '_'

/-- The pattern `/^[^\s@]+@[^\s@]+\.[^\s@]+$/`: a non-empty run of address
    characters, an `@`, then address characters only, with a dot that is
    neither the first nor the last of them. -/
def emailPattern (s : String) : Bool :=
  let local_ := s.data.takeWhile isAddrChar
  match s.data.dropWhile isAddrChar with
  | '@' :: domain =>
    !local_.isEmpty && domain.all isAddrChar && (domain.drop 1).dropLast.contains '.'
  | _ => false

/-- The pattern `/^\d{10}$/`. -/
def tenDigitsPattern (s : String) : Bool :=
  s.data.length = 10 && s.data.all isDigit

/-- The pattern `/^\d{5}$/`. -/
def fiveDigitsPattern (s : String) : Bool :=
  s.data.length = 5 && s.data.all isDigit

/-- The pattern `/^[a-zA-Z0-9_]+$/`. -/
def usernamePattern (s : String) : Bool :=
  !s.data.isEmpty && s.data.all isWordChar

/-! ## The custom validators of the default schema -/

/-- The `customValidator` of `confirmPassword`. -/
def confirmPasswordValidator (formData : FormData) (value : JSVal) : Option String :=
  let password := formData.read "password"
  if value.truthy && password.truthy && !(JSVal.strictEq value password) then
    some "Passwords do not match"
  else none

/-- The whole-year age of the `dob` validator: the difference of the years,
    less one when today's month and day come before the birth month and day. -/
def ageOn (today birthDate : LocalDate) : Int :=
  let age := today.year - birthDate.year
  let monthDiff := today.month - birthDate.month
  if monthDiff < 0 || (monthDiff = 0 && today.day < birthDate.day) then age - 1 else age

/-- The `customValidator` of `dob`. -/
def dobValidator (env : Env) (_formData : FormData) (value : JSVal) : Option String :=
  if !value.truthy then none
  else
    match env.parseDate (jsToString env value ++ "T00:00:00") with
    | none => some "Invalid date"
    | some birthDate =>
      if ageOn env.today birthDate < 18 then some "Must be at least 18 years old"
      else none

/-- The `age` entry of `fieldConfigs`. -/
def ageConfig : FieldConfig :=
  { key := "age", label := "Age", component := "input", type := some "number",
    rules := { required := true, min := some (JSNum.ofInt 18), max := some (JSNum.ofInt 100) } }

/-- The `username` entry of `fieldConfigs`. -/
def usernameConfig : FieldConfig :=
  { key := "username", label := "Username", component := "input", type := some "text",
    rules := { required := true, minLength := some (JSNum.ofInt 3), maxLength := some (JSNum.ofInt 20),
               pattern := some usernamePattern } }

/-- The `salary` entry of `fieldConfigs`. -/
def salaryConfig : FieldConfig :=
  { key := "salary", label := "Expected Salary", component := "input", type := some "number",
    rules := { required := false, min := some (JSNum.ofInt 0), max := some (JSNum.ofInt 1000000) } }

/-- The `password` entry of `fieldConfigs`. -/
def passwordConfig : FieldConfig :=
  { key := "password", label := "Password", component := "input", type := some "password",
    rules := { required := true, minLength := some (JSNum.ofInt 8) } }

/-- The `confirmPassword` entry of `fieldConfigs`. -/
def confirmPasswordConfig : FieldConfig :=
  { key := "confirmPassword", label := "Confirm Password", component := "input",
    type := some "password", rules := { required := true, minLength := some (JSNum.ofInt 8) },
    customValidator := some confirmPasswordValidator }

/-- The `dob` entry of `fieldConfigs`. -/
def dobConfig (env : Env) : FieldConfig :=
  { key := "dob", label := "Date of Birth", component := "input", type := some "date",
    rules := { required := true }, customValidator := some (dobValidator env) }

/-- The default schema `fieldConfigs`. -/
def fieldConfigs (env : Env) : List FieldConfig := [
  { key := "firstName", label := "First Name", component := "input", type := some "text",
    rules := { required := true, minLength := some (JSNum.ofInt 2) } },
  { key := "lastName", label := "Last Name", component := "input", type := some "text",
    rules := { required := true, minLength := some (JSNum.ofInt 2) } },
  { key := "email", label := "Email", component := "input", type := some "email",
    rules := { required := true, pattern := some emailPattern } },
  { key := "phone", label := "Phone Number", component := "input", type := some "tel",
    rules := { required := true, pattern := some tenDigitsPattern } },
  ageConfig,
  { key := "address", label := "Address", component := "input", type := some "text",
    rules := { required := true, minLength := some (JSNum.ofInt 10) } },
  { key := "city", label := "City", component := "input", type := some "text",
    rules := { required := true, minLength := some (JSNum.ofInt 2) } },
  { key := "state", label := "State", component := "select",
    rules := { required := true },
    options := some ["California", "New York", "Texas", "Florida", "Illinois"] },
  { key := "zip", label := "ZIP Code", component := "input", type := some "text",
    rules := { required := true, pattern := some fiveDigitsPattern } },
  { key := "country", label := "Country", component := "input", type := some "text",
    rules := { required := true, minLength := some (JSNum.ofInt 2) } },
  usernameConfig,
  passwordConfig,
  confirmPasswordConfig,
  dobConfig env,
  { key := "gender", label := "Gender", component := "select",
    rules := { required := true }, options := some ["Male", "Female", "Other"] },
  { key := "subscribe", label := "Subscribe to Newsletter", component := "checkbox",
    rules := { required := false } },
  { key := "comments", label := "Comments", component := "textarea", type := some "text",
    rules := { required := false, maxLength := some (JSNum.ofInt 500) } },
  { key := "emergencyContact", label := "Emergency Contact Phone", component := "input",
    type := some "tel", rules := { required := true, pattern := some tenDigitsPattern } },
  { key := "relation", label := "Relation to Emergency Contact", component := "input",
    type := some "text", rules := { required := true, minLength := some (JSNum.ofInt 2) } },
  salaryConfig ]

/-! ## The per-field validator -/

/-- The variable `isEmpty` of the required check (lines 59-68). -/
def isEmptyValue (value : JSVal) : Bool :=
  let isEmpty := JSVal.strictEq value (JSVal.str "") || JSVal.strictEq value JSVal.null ||
    JSVal.strictEq value JSVal.undefined
  if !isEmpty then
    match value with
    | JSVal.str s => decide (jsTrim s = "")
    | JSVal.num n => n.isNaN
    | JSVal.bool b => !b
    | _ => isEmpty
  else isEmpty

/-- The required check (lines 58-72): its message, when it returns. -/
def requiredCheck (config : FieldConfig) (value : JSVal) : Option String :=
  if config.rules.required && isEmptyValue value then
    some (config.label ++ " is required")
  else none

/-- The string checks on the trimmed value (lines 77-85).  A length rule is
    truthy (`config.rules.minLength && ...`) when it is set and neither zero
    nor `NaN`. -/
def trimmedChecks (env : Env) (config : FieldConfig) (trimmed : String) : Option String :=
  match config.rules.minLength with
  | some n =>
    if n.truthy && JSNum.lt (JSNum.ofInt (jsLength trimmed)) n then
      some ("Must be at least " ++ numberToString env n ++ " characters")
    else trimmedChecksMax
  | none => trimmedChecksMax
where
  /-- The `maxLength` check (lines 80-82), then the pattern. -/
  trimmedChecksMax : Option String :=
    match config.rules.maxLength with
    | some n =>
      if n.truthy && JSNum.gt (JSNum.ofInt (jsLength trimmed)) n then
        some ("Must be at most " ++ numberToString env n ++ " characters")
      else trimmedChecksPattern
    | none => trimmedChecksPattern
  /-- The `pattern` check (lines 83-85). -/
  trimmedChecksPattern : Option String :=
    match config.rules.pattern with
    | some test =>
      if !test trimmed then some ("Invalid format for " ++ config.label) else none
    | none => none

/-- The string-based checks (lines 75-86): only for a non-blank string. -/
def stringChecks (env : Env) (config : FieldConfig) (value : JSVal) : Option String :=
  match value with
  | JSVal.str s => if jsTrim s ≠ "" then trimmedChecks env config (jsTrim s) else none
  | _ => none

/-- The number-based checks (lines 89-96): only for a number that is not
    `NaN`. -/
def numberChecks (env : Env) (config : FieldConfig) (value : JSVal) : Option String :=
  match value with
  | JSVal.num v =>
    if !v.isNaN then
      match config.rules.min with
      | some m =>
        if JSNum.lt v m then some ("Must be at least " ++ numberToString env m)
        else numberChecksMax v
      | none => numberChecksMax v
    else none
  | _ => none
where
  /-- The `max` check (lines 93-95). -/
  numberChecksMax (v : JSNum) : Option String :=
    match config.rules.max with
    | some m =>
      if JSNum.gt v m then some ("Must be at most " ++ numberToString env m) else none
    | none => none

/-- The custom validator step (lines 99-104): the validator's message when it
    is truthy (a non-empty string). -/
def customCheck (config : FieldConfig) (value : JSVal) (formData : FormData) :
    Option String :=
  match config.customValidator with
  | some validator =>
    match validator formData value with
    | some customError => if customError ≠ "" then some customError else none
    | none => none
  | none => none

/-- The function `validateField(config, value, formData)`: the first check
    that returns decides, and the result is the empty string when none does. -/
def validateField (env : Env) (config : FieldConfig) (value : JSVal)
    (formData : FormData) : String :=
  match requiredCheck config value with
  | some error => error
  | none =>
    match stringChecks env config value with
    | some error => error
    | none =>
      match numberChecks env config value with
      | some error => error
      | none =>
        match customCheck config value formData with
        | some error => error
        | none => ""

/-! ## The event handlers -/

/-- The component's state: `formData` and `errors`. -/
structure FormState where
  formData : FormData
  errors : Errors

/-- The state after `useState({})` twice. -/
def initialState : FormState := { formData := [], errors := [] }

/-- What a change handler reads of the event: `e.target.checked`,
    `e.target.valueAsNumber` and `e.target.value`. -/
structure ChangeEvent where
  checked : Bool
  valueAsNumber : JSNum
  value : String

/-- The value `val` that `handleChange` stores (lines 110-118). -/
def coerceValue (config : FieldConfig) (e : ChangeEvent) : JSVal :=
  if config.component = "checkbox" then JSVal.bool e.checked
  else if config.type = some "number" then
    (if e.valueAsNumber.isNaN then JSVal.str "" else JSVal.num e.valueAsNumber)
  else JSVal.str e.value

/-- The loop `configs.forEach(c => newErrors[c.key] = validateField(c,
    formData[c.key], formData))` from the accumulated `newErrors`. -/
def validateAll (env : Env) (configs : List FieldConfig) (formData : FormData)
    (newErrors : Errors) : Errors :=
  configs.foldl
    (fun acc c => JSObj.set acc c.key (validateField env c (formData.read c.key) formData))
    newErrors

/-- The handler `handleChange(config, e)`. -/
def handleChange (env : Env) (st : FormState) (config : FieldConfig) (e : ChangeEvent) :
    FormState :=
  let val := coerceValue config e
  let newFormData := JSObj.set st.formData config.key val
  let newErrors := validateAll env (fieldConfigs env) newFormData []
  { formData := newFormData, errors := newErrors }

/-- The loop of `handleSubmit` (lines 135-139), on the pair
    `(newErrors, hasError)`. -/
def submitLoop (env : Env) (configs : List FieldConfig) (formData : FormData)
    (acc : Errors × Bool) : Errors × Bool :=
  configs.foldl
    (fun a config =>
      let err := validateField env config (formData.read config.key) formData
      (JSObj.set a.1 config.key err, if err ≠ "" then true else a.2))
    acc

/-- The handler `handleSubmit(e)`: the new state, and the value-sets handed
    to the submission sink (`console.log`), in order. -/
def handleSubmit (env : Env) (st : FormState) : FormState × List FormData :=
  let r := submitLoop env (fieldConfigs env) st.formData ([], false)
  ({ formData := st.formData, errors := r.1 }, if !r.2 then [st.formData] else [])

/-! ## The vocabulary of the claims -/

/-- The values the specification calls empty: `null`, `undefined`, the empty
    string, a string that trims to the empty string, `NaN`, and `false`. -/
def SpecEmpty (v : JSVal) : Prop :=
  v = JSVal.null ∨ v = JSVal.undefined ∨ v = JSVal.str "" ∨
  (∃ s, v = JSVal.str s ∧ jsTrim s = "") ∨ v = JSVal.num JSNum.nan ∨ v = JSVal.bool false

/-- A descriptor that is not required and whose custom validator rejects a
    missing value. -/
def optionalNoteConfig : FieldConfig :=
  { key := "note", label := "Note", component := "input", type := some "text",
    rules := { required := false },
    customValidator := some (fun _ value => if value.truthy then none else some "Note missing") }

/-- The value-set of the cascade example: a password and a differing
    confirmation. -/
def cascadeData : FormData :=
  [("password", JSVal.str "abc12345"), ("confirmPassword", JSVal.str "xyz12345")]

/-- The change event of a text control whose content is `s`. -/
def textEvent (s : String) : ChangeEvent :=
  { checked := false, valueAsNumber := JSNum.nan, value := s }

/-- The state reached from the initial one by typing the password
    "abc12345" and then the confirmation "xyz12345". -/
def cascadeState (env : Env) : FormState :=
  handleChange env (handleChange env initialState passwordConfig (textEvent "abc12345"))
    confirmPasswordConfig (textEvent "xyz12345")


/-- Lexicographic (year, month, day) order: `a` is strictly earlier than
    `b`. -/
def LocalDate.before (a b : LocalDate) : Prop :=
  a.year < b.year ∨ (a.year = b.year ∧ (a.month < b.month ∨ (a.month = b.month ∧ a.day < b.day)))

instance (a b : LocalDate) : Decidable (LocalDate.before a b) := by
  unfold LocalDate.before; infer_instance

/-- The eighteenth birthday of a birth date. -/
def LocalDate.plus18 (d : LocalDate) : LocalDate :=
  { year := d.year + 18, month := d.month, day := d.day }

/-- The date eighteen years before a date. -/
def LocalDate.minus18 (d : LocalDate) : LocalDate :=
  { year := d.year - 18, month := d.month, day := d.day }

/-- A runtime for the examples: today is 15 May 2024 (months count from 0),
    and the parser knows the two birth dates of the example. -/
def sampleEnv : Env :=
  { today := { year := 2024, month := 4, day := 15 }
    parseDate := fun s =>
      if s = "2006-05-15T00:00:00" then some { year := 2006, month := 4, day := 15 }
      else if s = "2006-05-16T00:00:00" then some { year := 2006, month := 4, day := 16 }
      else none
    finiteToString := fun _ => "0"
    finiteToString_chars := fun _ => rfl }

/-- A descriptor whose `maxLength` is 0. -/
def zeroMaxLengthConfig : FieldConfig :=
  { key := "code", label := "Code", component := "input", type := some "text",
    rules := { required := false, maxLength := some (JSNum.ofInt 0) } }


/-- The three cases of the specification's value coercion. -/
inductive CoercionKind where
  | checkbox
  | numeric
  | other
  deriving DecidableEq

/-- The case a descriptor falls in: checkbox kind first, then the numeric
    input type, then everything else. -/
def coercionKind (config : FieldConfig) : CoercionKind :=
  if config.component = "checkbox" then CoercionKind.checkbox
  else if config.type = some "number" then CoercionKind.numeric
  else CoercionKind.other

/-- The coercion as the specification words it (section 4.1): a checkbox
    gives the checked state, a numeric input the parsed number, or the empty
    string when the parse fails, and every other kind the raw string. -/
def coerceReference : CoercionKind → ChangeEvent → JSVal
  | CoercionKind.checkbox, e => JSVal.bool e.checked
  | CoercionKind.numeric, e =>
    match e.valueAsNumber with
    | JSNum.nan => JSVal.str ""
    | n => JSVal.num n
  | CoercionKind.other, e => JSVal.str e.value

/-- The change event of a number control: the parsed number and the text. -/
def numberEvent (n : JSNum) (s : String) : ChangeEvent :=
  { checked := false, valueAsNumber := n, value := s }

/-! ## Evaluation with exceptions

The calls of `validateField` that can throw in JavaScript, as partial
operations, and the function written over them as the source guards them. -/

/-- What stops an evaluation: a thrown `TypeError`, or an operand conversion
    that the model of values does not cover. -/
inductive JSError where
  | typeError (message : String)
  | unmodelled (operation : String)
  deriving DecidableEq

/-- The operator `typeof value`. -/
def jsTypeof : JSVal → String
  | JSVal.undefined => "undefined"
  | JSVal.null => "object"
  | JSVal.bool _ => "boolean"
  | JSVal.num _ => "number"
  | JSVal.str _ => "string"

/-- The method call `value.trim()`: only a string has the method. -/
def callTrim : JSVal → Except JSError String
  | JSVal.str s => Except.ok (jsTrim s)
  | JSVal.undefined => Except.error (JSError.typeError "cannot read properties of undefined")
  | JSVal.null => Except.error (JSError.typeError "cannot read properties of null")
  | _ => Except.error (JSError.typeError "value.trim is not a function")

/-- The number operand of `isNaN(value)`, `value < min` and `value > max`;
    the conversion of another kind of value to a number is not modelled. -/
def numberOperand : JSVal → Except JSError JSNum
  | JSVal.num n => Except.ok n
  | _ => Except.error (JSError.unmodelled "ToNumber")

/-- The method call `config.rules.pattern.test(trimmed)`: it throws when the
    rule is absent. -/
def callTest : Option (String → Bool) → String → Except JSError Bool
  | some test, s => Except.ok (test s)
  | none, _ => Except.error (JSError.typeError "cannot read properties of undefined")

/-- The call `config.customValidator(formData, value)`: it throws when the
    validator is `null`. -/
def callValidator : Option (FormData → JSVal → Option String) → FormData → JSVal →
    Except JSError (Option String)
  | some validator, formData, value => Except.ok (validator formData value)
  | none, _, _ => Except.error (JSError.typeError "config.customValidator is not a function")

/-- The variable `isEmpty` (lines 59-68), by the `typeof` tests of the
    source. -/
def isEmptyChecked (value : JSVal) : Except JSError Bool :=
  let isEmpty := JSVal.strictEq value (JSVal.str "") || JSVal.strictEq value JSVal.null ||
    JSVal.strictEq value JSVal.undefined
  if !isEmpty then
    if jsTypeof value = "string" then
      (callTrim value).bind (fun t => Except.ok (decide (t = "")))
    else if jsTypeof value = "number" then
      (numberOperand value).bind (fun n => Except.ok n.isNaN)
    else if jsTypeof value = "boolean" then Except.ok (!value.truthy)
    else Except.ok isEmpty
  else Except.ok isEmpty

/-- The required check (lines 58-72). -/
def requiredCheckChecked (config : FieldConfig) (value : JSVal) :
    Except JSError (Option String) :=
  if config.rules.required then
    (isEmptyChecked value).bind (fun isEmpty =>
      if isEmpty then Except.ok (some (config.label ++ " is required")) else Except.ok none)
  else Except.ok none

/-- The pattern check (lines 83-85): `test` is called only on a truthy
    rule. -/
def patternChecked (config : FieldConfig) (trimmed : String) :
    Except JSError (Option String) :=
  if config.rules.pattern.isSome then
    (callTest config.rules.pattern trimmed).bind (fun matched =>
      if !matched then Except.ok (some ("Invalid format for " ++ config.label))
      else Except.ok none)
  else Except.ok none

/-- The checks on the trimmed value (lines 77-85). -/
def trimmedChecksChecked (env : Env) (config : FieldConfig) (trimmed : String) :
    Except JSError (Option String) :=
  match config.rules.minLength with
  | some n =>
    if n.truthy && JSNum.lt (JSNum.ofInt (jsLength trimmed)) n then
      Except.ok (some ("Must be at least " ++ numberToString env n ++ " characters"))
    else maxChecked
  | none => maxChecked
where
  /-- The `maxLength` check (lines 80-82), then the pattern. -/
  maxChecked : Except JSError (Option String) :=
    match config.rules.maxLength with
    | some n =>
      if n.truthy && JSNum.gt (JSNum.ofInt (jsLength trimmed)) n then
        Except.ok (some ("Must be at most " ++ numberToString env n ++ " characters"))
      else patternChecked config trimmed
    | none => patternChecked config trimmed

/-- The string-based checks (lines 75-86). -/
def stringChecksChecked (env : Env) (config : FieldConfig) (value : JSVal) :
    Except JSError (Option String) :=
  if jsTypeof value = "string" then
    (callTrim value).bind (fun t =>
      if t ≠ "" then
        (callTrim value).bind (fun trimmed => trimmedChecksChecked env config trimmed)
      else Except.ok none)
  else Except.ok none

/-- The number-based checks (lines 89-96). -/
def numberChecksChecked (env : Env) (config : FieldConfig) (value : JSVal) :
    Except JSError (Option String) :=
  if jsTypeof value = "number" then
    (numberOperand value).bind (fun v =>
      if !v.isNaN then
        match config.rules.min with
        | some m =>
          if JSNum.lt v m then
            Except.ok (some ("Must be at least " ++ numberToString env m))
          else maxChecked v
        | none => maxChecked v
      else Except.ok none)
  else Except.ok none
where
  /-- The `max` check (lines 93-95). -/
  maxChecked (v : JSNum) : Except JSError (Option String) :=
    match config.rules.max with
    | some m =>
      if JSNum.gt v m then Except.ok (some ("Must be at most " ++ numberToString env m))
      else Except.ok none
    | none => Except.ok none

/-- The custom validator step (lines 99-104): the validator is called only
    when it is truthy. -/
def customCheckChecked (config : FieldConfig) (value : JSVal) (formData : FormData) :
    Except JSError (Option String) :=
  if config.customValidator.isSome then
    (callValidator config.customValidator formData value).bind (fun customError =>
      match customError with
      | some message => if message ≠ "" then Except.ok (some message) else Except.ok none
      | none => Except.ok none)
  else Except.ok none

/-- The function `validateField` over the partial operations. -/
def validateFieldChecked (env : Env) (config : FieldConfig) (value : JSVal)
    (formData : FormData) : Except JSError String :=
  (requiredCheckChecked config value).bind (fun required =>
    match required with
    | some error => Except.ok error
    | none =>
      (stringChecksChecked env config value).bind (fun strings =>
        match strings with
        | some error => Except.ok error
        | none =>
          (numberChecksChecked env config value).bind (fun numbers =>
            match numbers with
            | some error => Except.ok error
            | none =>
              (customCheckChecked config value formData).bind (fun custom =>
                match custom with
                | some error => Except.ok error
                | none => Except.ok ""))))

/-- A value-set whose password is "xyz12345". -/
def passwordData : FormData := [("password", JSVal.str "xyz12345")]

/-- A descriptor whose custom validator reports the number 0 with the text
    of the required message. -/
def amountConfig : FieldConfig :=
  { key := "amount", label := "Amount", component := "input", type := some "number",
    rules := { required := true },
    customValidator := some (fun _ value =>
      if JSVal.strictEq value (JSVal.num (JSNum.ofInt 0)) then some "Amount is required"
      else none) }

/-! ## Basic facts -/

theorem jsTrim_empty : jsTrim "" = "" := by decide

theorem append_ne_empty (a b : String) (hb : b ≠ "") : a ++ b ≠ "" := by
  intro h
  apply hb
  have h1 : (a ++ b).data = [] := by rw [h]
  rw [String.data_append] at h1
  exact String.ext (List.append_eq_nil.mp h1).2

theorem isEmptyValue_str (s : String) :
    isEmptyValue (JSVal.str s) = decide (jsTrim s = "") := by
  by_cases h : s = ""
  · subst h; decide
  · simp [isEmptyValue, JSVal.strictEq, h]

theorem isEmptyValue_iff (v : JSVal) : isEmptyValue v = true ↔ SpecEmpty v := by
  cases v with
  | undefined => simp [SpecEmpty, isEmptyValue, JSVal.strictEq]
  | null => simp [SpecEmpty, isEmptyValue, JSVal.strictEq]
  | bool b => cases b <;> simp [SpecEmpty, isEmptyValue, JSVal.strictEq]
  | num n => cases n <;> simp [SpecEmpty, isEmptyValue, JSVal.strictEq, JSNum.isNaN]
  | str s =>
    rw [isEmptyValue_str]
    simp only [SpecEmpty, decide_eq_true_eq]
    constructor
    · intro h; exact Or.inr (Or.inr (Or.inr (Or.inl ⟨s, rfl, h⟩)))
    · intro h
      rcases h with h | h | h | ⟨t, ht, h⟩ | h | h
      · cases h
      · cases h
      · cases h; exact jsTrim_empty
      · cases ht; exact h
      · cases h
      · cases h

theorem stringChecks_of_empty (env : Env) (config : FieldConfig) (v : JSVal) (h : SpecEmpty v) :
    stringChecks env config v = none := by
  rcases h with h | h | h | ⟨t, ht, h⟩ | h | h <;> subst_vars <;> simp [stringChecks, jsTrim_empty, *]

theorem numberChecks_of_empty (env : Env) (config : FieldConfig) (v : JSVal) (h : SpecEmpty v) :
    numberChecks env config v = none := by
  rcases h with h | h | h | ⟨t, ht, h⟩ | h | h <;> subst_vars <;> simp [numberChecks, JSNum.isNaN]

theorem validateField_of_required_empty (env : Env) (config : FieldConfig) (value : JSVal)
    (formData : FormData) (hreq : config.rules.required = true) (hempty : SpecEmpty value) :
    validateField env config value formData = config.label ++ " is required" := by
  have h := (isEmptyValue_iff value).mpr hempty
  simp [validateField, requiredCheck, hreq, h]

/-! ## C1 and C2: the required check -/

/-- C1: for a descriptor with `rules.required = true` and a value that is
    `null`, `undefined`, empty, blank, `NaN` or `false`, `validateField`
    returns the label followed by " is required", whatever the other rules,
    the custom validator and the value-set are. -/
theorem C1_required_empty_value (env : Env) (config : FieldConfig) (value : JSVal) (formData : FormData)
    (hreq : config.rules.required = true) (hempty : SpecEmpty value) :
    validateField env config value formData = config.label ++ " is required" :=
  validateField_of_required_empty env config value formData hreq hempty

/-- C1 at the required `confirmPassword` descriptor and a blank string. -/
theorem C1_required_empty_value_witness :
    confirmPasswordConfig.rules.required = true ∧ SpecEmpty (JSVal.str "  ") ∧
    validateField sampleEnv confirmPasswordConfig (JSVal.str "  ") [] = "Confirm Password is required" :=
  ⟨rfl, Or.inr (Or.inr (Or.inr (Or.inl ⟨"  ", rfl, by decide⟩))),
   C1_required_empty_value sampleEnv confirmPasswordConfig (JSVal.str "  ") [] rfl
     (Or.inr (Or.inr (Or.inr (Or.inl ⟨"  ", rfl, by decide⟩))))⟩

/-- C2 fails as stated: a descriptor that is not required runs its custom
    validator on an empty value, and returns the validator's message. -/
theorem C2_counterexample :
    optionalNoteConfig.rules.required = false ∧ SpecEmpty (JSVal.str "") ∧
    validateField sampleEnv optionalNoteConfig (JSVal.str "") [] = "Note missing" :=
  ⟨rfl, Or.inr (Or.inr (Or.inl rfl)), by decide⟩

/-- C2, amended: for a descriptor with `rules.required = false` and an empty
    value, the string and numeric checks are skipped, and `validateField`
    returns what the custom validator step gives: the empty string when the
    descriptor has no custom validator, or when its validator returns `null`
    or the empty string for that value, and the validator's message
    otherwise. -/
theorem C2_optional_empty_value (env : Env) (config : FieldConfig) (value : JSVal) (formData : FormData)
    (hreq : config.rules.required = false) (hempty : SpecEmpty value) :
    requiredCheck config value = none ∧ stringChecks env config value = none ∧
    numberChecks env config value = none ∧
    validateField env config value formData = (customCheck config value formData).getD "" ∧
    (config.customValidator = none → validateField env config value formData = "") ∧
    (∀ validator, config.customValidator = some validator →
      (validator formData value = none ∨ validator formData value = some "") →
      validateField env config value formData = "") ∧
    (∀ validator message, config.customValidator = some validator →
      validator formData value = some message → message ≠ "" →
      validateField env config value formData = message) := by
  have hr : requiredCheck config value = none := by simp [requiredCheck, hreq]
  have hs := stringChecks_of_empty env config value hempty
  have hn := numberChecks_of_empty env config value hempty
  have hv : validateField env config value formData = (customCheck config value formData).getD "" := by
    simp only [validateField, hr, hs, hn]
    cases customCheck config value formData <;> rfl
  refine ⟨hr, hs, hn, hv, ?_, ?_, ?_⟩
  · intro hc; rw [hv]; simp [customCheck, hc]
  · intro validator hc hres
    rw [hv]
    rcases hres with hres | hres <;> simp [customCheck, hc, hres]
  · intro validator message hc hres hne
    rw [hv]; simp [customCheck, hc, hres, hne]

/-- C2, amended, at the optional `salary` descriptor, which has no
    validator. -/
theorem C2_optional_empty_value_witness :
    validateField sampleEnv salaryConfig (JSVal.str "") [] = "" :=
  (C2_optional_empty_value sampleEnv salaryConfig (JSVal.str "") [] rfl
    (Or.inr (Or.inr (Or.inl rfl)))).2.2.2.2.1 rfl

/-! ## Objects: reading after writing -/

theorem JSObj.get?_set {α : Type} (o : JSObj α) (k k' : String) (v : α) :
    JSObj.get? (JSObj.set o k v) k' = if k = k' then some v else JSObj.get? o k' := by
  induction o with
  | nil => simp [JSObj.set, JSObj.get?]
  | cons p rest ih =>
    obtain ⟨a, w⟩ := p
    by_cases h : a = k
    · subst h
      by_cases h2 : a = k' <;> simp [JSObj.set, JSObj.get?, h2]
    · by_cases h2 : a = k'
      · subst h2
        have h3 : ¬ k = a := fun h4 => h h4.symm
        simp [JSObj.set, JSObj.get?, h, h3]
      · simp [JSObj.set, JSObj.get?, h, h2, ih]

theorem FormData.read_set (fd : FormData) (k k' : String) (v : JSVal) :
    FormData.read (JSObj.set fd k v) k' = if k = k' then v else FormData.read fd k' := by
  unfold FormData.read
  rw [JSObj.get?_set]
  split <;> rfl

/-! ## The validation pass -/

theorem validateAll_cons (env : Env) (c : FieldConfig) (cs : List FieldConfig) (fd : FormData)
    (errs : Errors) :
    validateAll env (c :: cs) fd errs =
      validateAll env cs fd (JSObj.set errs c.key (validateField env c (fd.read c.key) fd)) := rfl

theorem get?_validateAll_of_not_mem (env : Env) (cs : List FieldConfig) (fd : FormData) (errs : Errors)
    (k : String) (hk : k ∉ cs.map (fun c => c.key)) :
    JSObj.get? (validateAll env cs fd errs) k = JSObj.get? errs k := by
  induction cs generalizing errs with
  | nil => rfl
  | cons c cs ih =>
    simp only [List.map_cons, List.mem_cons, not_or] at hk
    rw [validateAll_cons, ih _ hk.2, JSObj.get?_set]
    have h : ¬ c.key = k := fun h => hk.1 h.symm
    simp [h]

theorem get?_validateAll_of_mem (env : Env) (cs : List FieldConfig) (fd : FormData) (errs : Errors)
    (hnodup : (cs.map (fun c => c.key)).Nodup) (c : FieldConfig) (hc : c ∈ cs) :
    JSObj.get? (validateAll env cs fd errs) c.key = some (validateField env c (fd.read c.key) fd) := by
  induction cs generalizing errs with
  | nil => cases hc
  | cons d cs ih =>
    simp only [List.map_cons, List.nodup_cons] at hnodup
    rw [validateAll_cons]
    rcases List.mem_cons.mp hc with h | h
    · subst h
      rw [get?_validateAll_of_not_mem env _ _ _ _ hnodup.1, JSObj.get?_set]
      simp
    · exact ih _ hnodup.2 h

theorem get?_validateAll_some (env : Env) (cs : List FieldConfig) (fd : FormData) (errs : Errors)
    (k msg : String) (h : JSObj.get? (validateAll env cs fd errs) k = some msg) :
    JSObj.get? errs k = some msg ∨
      ∃ c ∈ cs, c.key = k ∧ msg = validateField env c (fd.read c.key) fd := by
  induction cs generalizing errs with
  | nil => exact Or.inl h
  | cons d cs ih =>
    rw [validateAll_cons] at h
    rcases ih _ h with h1 | ⟨c, hc, hk, hm⟩
    · rw [JSObj.get?_set] at h1
      by_cases hd : d.key = k
      · rw [if_pos hd] at h1
        exact Or.inr ⟨d, List.mem_cons_self _ _, hd, (Option.some.inj h1).symm⟩
      · rw [if_neg hd] at h1
        exact Or.inl h1
    · exact Or.inr ⟨c, List.mem_cons_of_mem _ hc, hk, hm⟩

theorem submitLoop_fst (env : Env) (cs : List FieldConfig) (fd : FormData) (acc : Errors × Bool) :
    (submitLoop env cs fd acc).1 = validateAll env cs fd acc.1 := by
  induction cs generalizing acc with
  | nil => rfl
  | cons c cs ih => exact ih _

theorem submitLoop_snd (env : Env) (cs : List FieldConfig) (fd : FormData) (acc : Errors × Bool) :
    (submitLoop env cs fd acc).2 = true ↔
      acc.2 = true ∨ ∃ c ∈ cs, validateField env c (fd.read c.key) fd ≠ "" := by
  induction cs generalizing acc with
  | nil => simp [submitLoop]
  | cons c cs ih =>
    have h := ih (JSObj.set acc.1 c.key (validateField env c (fd.read c.key) fd),
        if validateField env c (fd.read c.key) fd ≠ "" then true else acc.2)
    have e : submitLoop env (c :: cs) fd acc = submitLoop env cs fd
        (JSObj.set acc.1 c.key (validateField env c (fd.read c.key) fd),
          if validateField env c (fd.read c.key) fd ≠ "" then true else acc.2) := rfl
    rw [e, h]
    by_cases hv : validateField env c (fd.read c.key) fd = ""
    · simp [hv]
    · simp [hv]

theorem fieldConfigs_keys (env : Env) :
    (fieldConfigs env).map (fun c => c.key) =
      ["firstName", "lastName", "email", "phone", "age", "address", "city", "state", "zip",
       "country", "username", "password", "confirmPassword", "dob", "gender", "subscribe",
       "comments", "emergencyContact", "relation", "salary"] := rfl

theorem fieldConfigs_keys_nodup (env : Env) :
    ((fieldConfigs env).map (fun c => c.key)).Nodup := by
  rw [fieldConfigs_keys]; decide

theorem JSObj.set_of_not_mem {α : Type} (o : JSObj α) (k : String) (v : α)
    (h : k ∉ JSObj.keys o) : JSObj.set o k v = o ++ [(k, v)] := by
  induction o with
  | nil => rfl
  | cons p rest ih =>
    obtain ⟨a, w⟩ := p
    simp only [JSObj.keys, List.map_cons, List.mem_cons, not_or] at h
    have h1 : ¬ a = k := fun h2 => h.1 h2.symm
    simp only [JSObj.set, if_neg h1, List.cons_append]
    rw [ih h.2]

theorem validateAll_eq_append (env : Env) (cs : List FieldConfig) (fd : FormData) (errs : Errors)
    (hnodup : (cs.map (fun c => c.key)).Nodup)
    (hfresh : ∀ c ∈ cs, c.key ∉ JSObj.keys errs) :
    validateAll env cs fd errs =
      errs ++ cs.map (fun c => (c.key, validateField env c (fd.read c.key) fd)) := by
  induction cs generalizing errs with
  | nil => simp [validateAll]
  | cons d cs ih =>
    simp only [List.map_cons, List.nodup_cons] at hnodup
    rw [validateAll_cons, JSObj.set_of_not_mem _ _ _ (hfresh d (List.mem_cons_self _ _)),
      ih _ hnodup.2]
    · simp
    · intro c hc
      simp only [JSObj.keys, List.map_append, List.map_cons, List.map_nil, List.mem_append,
        List.mem_singleton, not_or]
      refine ⟨hfresh c (List.mem_cons_of_mem _ hc), ?_⟩
      intro h
      exact hnodup.1 (h ▸ List.mem_map_of_mem (fun c => c.key) hc)

theorem validateAll_schema (env : Env) (fd : FormData) :
    validateAll env (fieldConfigs env) fd [] =
      (fieldConfigs env).map (fun c => (c.key, validateField env c (fd.read c.key) fd)) := by
  rw [validateAll_eq_append env _ _ _ (fieldConfigs_keys_nodup env) (by intro c _; simp [JSObj.keys])]
  rfl

theorem FormData.read_nil (k : String) : FormData.read [] k = JSVal.undefined := rfl

theorem validateField_undefined (env : Env) (config : FieldConfig) (fd : FormData) :
    validateField env config JSVal.undefined fd =
      if config.rules.required = true then config.label ++ " is required"
      else (customCheck config JSVal.undefined fd).getD "" := by
  cases hreq : config.rules.required with
  | true =>
    rw [validateField_of_required_empty env config _ fd hreq (Or.inr (Or.inl rfl))]
    simp
  | false =>
    have h1 : requiredCheck config JSVal.undefined = none := by simp [requiredCheck, hreq]
    simp only [validateField, h1, stringChecks, numberChecks]
    cases customCheck config JSVal.undefined fd <;> simp

theorem validateAll_initial (env : Env) :
    validateAll env (fieldConfigs env) [] [] =
      [("firstName", "First Name is required"), ("lastName", "Last Name is required"),
       ("email", "Email is required"), ("phone", "Phone Number is required"),
       ("age", "Age is required"), ("address", "Address is required"),
       ("city", "City is required"), ("state", "State is required"),
       ("zip", "ZIP Code is required"), ("country", "Country is required"),
       ("username", "Username is required"), ("password", "Password is required"),
       ("confirmPassword", "Confirm Password is required"),
       ("dob", "Date of Birth is required"), ("gender", "Gender is required"),
       ("subscribe", ""), ("comments", ""),
       ("emergencyContact", "Emergency Contact Phone is required"),
       ("relation", "Relation to Emergency Contact is required"), ("salary", "")] := by
  rw [validateAll_schema]
  simp only [FormData.read_nil, validateField_undefined]
  rfl

theorem handleSubmit_sink (env : Env) (st : FormState) :
    (handleSubmit env st).2 =
      if (submitLoop env (fieldConfigs env) st.formData ([], false)).2 = true then []
      else [st.formData] := by
  show (if (!(submitLoop env (fieldConfigs env) st.formData ([], false)).2) = true
      then [st.formData] else []) = _
  generalize (submitLoop env (fieldConfigs env) st.formData ([], false)).2 = b
  cases b <;> rfl

theorem handleSubmit_errors (env : Env) (st : FormState) :
    (handleSubmit env st).1.errors = validateAll env (fieldConfigs env) st.formData [] := by
  simp only [handleSubmit]
  rw [submitLoop_fst]

theorem hasError_iff (env : Env) (fd : FormData) :
    (submitLoop env (fieldConfigs env) fd ([], false)).2 = true ↔
      ∃ c ∈ fieldConfigs env, validateField env c (fd.read c.key) fd ≠ "" := by
  rw [submitLoop_snd]; simp

theorem handleChange_formData (env : Env) (st : FormState) (config : FieldConfig)
    (e : ChangeEvent) :
    (handleChange env st config e).formData =
      JSObj.set st.formData config.key (coerceValue config e) := by
  simp only [handleChange]

theorem handleChange_errors (env : Env) (st : FormState) (config : FieldConfig)
    (e : ChangeEvent) :
    (handleChange env st config e).errors =
      validateAll env (fieldConfigs env)
        (JSObj.set st.formData config.key (coerceValue config e)) [] := by
  simp only [handleChange]

theorem required_message_ne_empty (label : String) : label ++ " is required" ≠ "" :=
  append_ne_empty label " is required" (by decide)

/-! ## C3: submit gating -/

/-- C3: `handleSubmit` hands the value-set to the sink exactly when
    `validateField` returns the empty string for every descriptor of the
    schema, and then exactly once, unchanged, with every entry of the new
    error-set empty; otherwise the sink is not invoked.  When a required field
    is empty the new error-set holds a non-empty message and nothing is
    submitted.  Submitting the initial, empty value-set gives the required
    message for the 17 required fields, the empty string for `subscribe`,
    `comments` and `salary`, and no submission. -/
theorem C3_submit_gating (env : Env) (st : FormState) :
    ((handleSubmit env st).2 = [st.formData] ↔
      ∀ c ∈ fieldConfigs env, validateField env c (st.formData.read c.key) st.formData = "") ∧
    ((handleSubmit env st).2 = [st.formData] ∨ (handleSubmit env st).2 = []) ∧
    (handleSubmit env st).1.formData = st.formData ∧
    (∀ c ∈ fieldConfigs env, JSObj.get? (handleSubmit env st).1.errors c.key =
      some (validateField env c (st.formData.read c.key) st.formData)) ∧
    ((∃ c ∈ fieldConfigs env, c.rules.required = true ∧ SpecEmpty (st.formData.read c.key)) →
      (∃ k msg, JSObj.get? (handleSubmit env st).1.errors k = some msg ∧ msg ≠ "") ∧
      (handleSubmit env st).2 = []) ∧
    ((∀ c ∈ fieldConfigs env, validateField env c (st.formData.read c.key) st.formData = "") →
      (handleSubmit env st).2 = [st.formData] ∧
      ∀ k msg, JSObj.get? (handleSubmit env st).1.errors k = some msg → msg = "") ∧
    (handleSubmit env initialState).1.errors =
      [("firstName", "First Name is required"), ("lastName", "Last Name is required"),
       ("email", "Email is required"), ("phone", "Phone Number is required"),
       ("age", "Age is required"), ("address", "Address is required"),
       ("city", "City is required"), ("state", "State is required"),
       ("zip", "ZIP Code is required"), ("country", "Country is required"),
       ("username", "Username is required"), ("password", "Password is required"),
       ("confirmPassword", "Confirm Password is required"),
       ("dob", "Date of Birth is required"), ("gender", "Gender is required"),
       ("subscribe", ""), ("comments", ""),
       ("emergencyContact", "Emergency Contact Phone is required"),
       ("relation", "Relation to Emergency Contact is required"), ("salary", "")] ∧
    (handleSubmit env initialState).2 = [] := by
  have hsink := handleSubmit_sink env st
  have herrs := handleSubmit_errors env st
  have hflag := hasError_iff env st.formData
  have hentry : ∀ c ∈ fieldConfigs env, JSObj.get? (handleSubmit env st).1.errors c.key =
      some (validateField env c (st.formData.read c.key) st.formData) := by
    intro c hc
    rw [herrs]
    exact get?_validateAll_of_mem env _ _ _ (fieldConfigs_keys_nodup env) c hc
  have hok : (∀ c ∈ fieldConfigs env,
      validateField env c (st.formData.read c.key) st.formData = "") →
      (handleSubmit env st).2 = [st.formData] := by
    intro hall
    rw [hsink, if_neg]
    rw [hflag]
    rintro ⟨c, hc, hne⟩
    exact hne (hall c hc)
  have hbad : (∃ c ∈ fieldConfigs env,
      validateField env c (st.formData.read c.key) st.formData ≠ "") →
      (handleSubmit env st).2 = [] := by
    intro hex
    rw [hsink, if_pos (hflag.mpr hex)]
  refine ⟨⟨?_, hok⟩, ?_, ?_, hentry, ?_, ?_, ?_, ?_⟩
  · intro hs c hc
    by_contra hne
    rw [hbad ⟨c, hc, hne⟩] at hs
    cases hs
  · by_cases hall : ∀ c ∈ fieldConfigs env,
        validateField env c (st.formData.read c.key) st.formData = ""
    · exact Or.inl (hok hall)
    · push_neg at hall
      exact Or.inr (hbad hall)
  · simp only [handleSubmit]
  · rintro ⟨c, hc, hreq, hempty⟩
    have hmsg := validateField_of_required_empty env c (st.formData.read c.key) st.formData hreq hempty
    have hne : validateField env c (st.formData.read c.key) st.formData ≠ "" := by
      rw [hmsg]; exact required_message_ne_empty _
    exact ⟨⟨c.key, _, hentry c hc, hne⟩, hbad ⟨c, hc, hne⟩⟩
  · intro hall
    refine ⟨hok hall, ?_⟩
    intro k msg hk
    rw [herrs] at hk
    rcases get?_validateAll_some env _ _ _ _ _ hk with h | ⟨c, hc, _, hm⟩
    · cases h
    · rw [hm]; exact hall c hc
  · rw [handleSubmit_errors]
    exact validateAll_initial env
  · rw [handleSubmit_sink, if_pos]
    rw [hasError_iff]
    refine ⟨passwordConfig, by simp [fieldConfigs], ?_⟩
    show validateField env passwordConfig JSVal.undefined [] ≠ ""
    rw [validateField_undefined]
    decide

/-! ## Non-blank strings -/

theorem jsTrim_ne_empty_ne (s : String) (h : jsTrim s ≠ "") : s ≠ "" := by
  intro hs; subst hs; exact h jsTrim_empty

theorem requiredCheck_str (config : FieldConfig) (s : String) (h : jsTrim s ≠ "") :
    requiredCheck config (JSVal.str s) = none := by
  simp [requiredCheck, isEmptyValue_str, h]

theorem validateField_str (env : Env) (config : FieldConfig) (s : String) (fd : FormData)
    (h : jsTrim s ≠ "") :
    validateField env config (JSVal.str s) fd =
      match trimmedChecks env config (jsTrim s) with
      | some error => error
      | none => (customCheck config (JSVal.str s) fd).getD "" := by
  simp only [validateField, requiredCheck_str config s h, stringChecks, numberChecks]
  rw [if_pos h]
  cases trimmedChecks env config (jsTrim s) with
  | some error => rfl
  | none => cases customCheck config (JSVal.str s) fd <;> rfl

theorem validateField_of_checks_none (env : Env) (config : FieldConfig) (value : JSVal) (fd : FormData)
    (hreq : requiredCheck config value = none) (hstr : stringChecks env config value = none)
    (hnum : numberChecks env config value = none) :
    validateField env config value fd = (customCheck config value fd).getD "" := by
  simp only [validateField, hreq, hstr, hnum]
  cases customCheck config value fd <;> rfl

theorem strictEq_str_iff (s : String) (p : JSVal) :
    JSVal.strictEq (JSVal.str s) p = true ↔ p = JSVal.str s := by
  cases p <;> simp [JSVal.strictEq, eq_comm]

/-! ## Rule constants that are integers -/

theorem JSNum.lt_ofInt (a b : Int) :
    JSNum.lt (JSNum.ofInt a) (JSNum.ofInt b) = decide (a < b) := by
  simp [JSNum.lt, JSNum.ofInt]

theorem JSNum.gt_ofInt (a b : Int) :
    JSNum.gt (JSNum.ofInt a) (JSNum.ofInt b) = decide (b < a) := by
  simp [JSNum.gt, JSNum.lt_ofInt]

theorem JSNum.truthy_ofInt (n : Int) : (JSNum.ofInt n).truthy = decide (n ≠ 0) := by
  simp [JSNum.truthy, JSNum.ofInt]

theorem numberToString_ofInt (env : Env) (n : Int) (h : n.natAbs ≤ maxExactInt) :
    numberToString env (JSNum.ofInt n) = toString n := by
  simp [numberToString, JSNum.ofInt, h]

theorem trimmedChecks_confirmPassword (env : Env) (t : String) (hlen : 8 ≤ jsLength t) :
    trimmedChecks env confirmPasswordConfig t = none := by
  have hlen2 : ¬ ((jsLength t : Int) < 8) := by omega
  simp [trimmedChecks, trimmedChecks.trimmedChecksMax, trimmedChecks.trimmedChecksPattern,
    confirmPasswordConfig, JSNum.lt_ofInt, hlen2]

theorem validateField_confirmPassword (env : Env) (s : String) (fs : FormData)
    (hne : jsTrim s ≠ "") (hlen : 8 ≤ jsLength (jsTrim s)) :
    validateField env confirmPasswordConfig (JSVal.str s) fs =
      (customCheck confirmPasswordConfig (JSVal.str s) fs).getD "" := by
  rw [validateField_str env confirmPasswordConfig s fs hne,
    trimmedChecks_confirmPassword env _ hlen]

/-! ## C4: change cascade -/

theorem confirmPasswordConfig_mem (env : Env) : confirmPasswordConfig ∈ fieldConfigs env := by
  simp [fieldConfigs]

theorem errors_confirmPassword (env : Env) (fd : FormData) :
    JSObj.get? (validateAll env (fieldConfigs env) fd []) "confirmPassword" =
      some (validateField env confirmPasswordConfig (fd.read "confirmPassword") fd) :=
  get?_validateAll_of_mem env _ _ _ (fieldConfigs_keys_nodup env) confirmPasswordConfig
    (confirmPasswordConfig_mem env)

theorem cascadeState_formData (env : Env) : (cascadeState env).formData = cascadeData := by
  simp only [cascadeState, handleChange_formData]
  decide

/-- C4: after `handleChange` on a descriptor, the value-set is the old one
    with that key set to the coerced value, and the entry of the error-set for
    every schema key is `validateField` of its descriptor on the new value-set.
    With password "abc12345" and confirmPassword "xyz12345" the confirmation
    carries "Passwords do not match", and changing the password to "xyz12345"
    makes the confirmPassword entry the empty string. -/
theorem C4_change_cascade (env : Env) (st : FormState) (config : FieldConfig)
    (e : ChangeEvent) :
    (handleChange env st config e).formData =
      JSObj.set st.formData config.key (coerceValue config e) ∧
    (∀ c ∈ fieldConfigs env, JSObj.get? (handleChange env st config e).errors c.key =
      some (validateField env c ((handleChange env st config e).formData.read c.key)
        (handleChange env st config e).formData)) ∧
    (cascadeState env).formData = cascadeData ∧
    JSObj.get? (cascadeState env).errors "confirmPassword" = some "Passwords do not match" ∧
    (handleChange env (cascadeState env) passwordConfig (textEvent "xyz12345")).formData =
      [("password", JSVal.str "xyz12345"), ("confirmPassword", JSVal.str "xyz12345")] ∧
    JSObj.get? (handleChange env (cascadeState env) passwordConfig
      (textEvent "xyz12345")).errors "confirmPassword" = some "" := by
  refine ⟨handleChange_formData env st config e, ?_, cascadeState_formData env, ?_, ?_, ?_⟩
  · intro c hc
    rw [handleChange_errors, handleChange_formData]
    exact get?_validateAll_of_mem env _ _ _ (fieldConfigs_keys_nodup env) c hc
  · have h : (cascadeState env).errors =
        validateAll env (fieldConfigs env) (cascadeState env).formData [] := by
      simp only [cascadeState, handleChange_errors, handleChange_formData]
    have hr : cascadeData.read "confirmPassword" = JSVal.str "xyz12345" := by decide
    rw [h, cascadeState_formData, errors_confirmPassword, hr,
      validateField_confirmPassword env "xyz12345" _ (by decide) (by decide)]
    decide
  · rw [handleChange_formData, cascadeState_formData]
    decide
  · have hr : FormData.read (JSObj.set cascadeData passwordConfig.key
        (coerceValue passwordConfig (textEvent "xyz12345"))) "confirmPassword" =
        JSVal.str "xyz12345" := by decide
    rw [handleChange_errors, cascadeState_formData, errors_confirmPassword, hr,
      validateField_confirmPassword env "xyz12345" _ (by decide) (by decide)]
    decide

/-! ## C5: the confirmation field -/

/-- C5 fails as stated: a confirmation equal to the password is still
    rejected by the built-in checks (here `minLength`), a differing non-empty
    confirmation that is too short gets the `minLength` message, and a
    differing confirmation of an absent password gets no message. -/
theorem C5_counterexample :
    (FormData.read [("password", JSVal.str "abc")] "password" = JSVal.str "abc" ∧
      validateField sampleEnv confirmPasswordConfig (JSVal.str "abc") [("password", JSVal.str "abc")] =
        "Must be at least 8 characters") ∧
    (FormData.read [("password", JSVal.str "abc12345")] "password" ≠ JSVal.str "xyz" ∧
      validateField sampleEnv confirmPasswordConfig (JSVal.str "xyz")
        [("password", JSVal.str "abc12345")] = "Must be at least 8 characters") ∧
    (FormData.read [] "password" ≠ JSVal.str "xyz12345" ∧
      validateField sampleEnv confirmPasswordConfig (JSVal.str "xyz12345") [] = "") := by
  decide

/-- C5, amended: for a string value that passes the built-in checks of the
    `confirmPassword` descriptor (its trimmed form is non-empty and has at
    least 8 characters), `validateField` yields no error when the value
    equals `fs.password`, exactly "Passwords do not match" when `fs.password`
    is present (truthy) and differs from the value, and no error when
    `fs.password` is absent or otherwise falsy. -/
theorem C5_confirmation_field (env : Env) (fs : FormData) (s : String)
    (hne : jsTrim s ≠ "") (hlen : 8 ≤ jsLength (jsTrim s)) :
    (fs.read "password" = JSVal.str s →
      validateField env confirmPasswordConfig (JSVal.str s) fs = "") ∧
    ((fs.read "password").truthy = true → fs.read "password" ≠ JSVal.str s →
      validateField env confirmPasswordConfig (JSVal.str s) fs = "Passwords do not match") ∧
    ((fs.read "password").truthy = false →
      validateField env confirmPasswordConfig (JSVal.str s) fs = "") := by
  have hs : s ≠ "" := jsTrim_ne_empty_ne s hne
  have hv := validateField_confirmPassword env s fs hne hlen
  refine ⟨?_, ?_, ?_⟩
  · intro heq
    rw [hv]
    have h := (strictEq_str_iff s (fs.read "password")).mpr heq
    simp [customCheck, confirmPasswordConfig, confirmPasswordValidator, h]
  · intro ht hneq
    rw [hv]
    have h : JSVal.strictEq (JSVal.str s) (fs.read "password") = false := by
      rw [Bool.eq_false_iff]
      exact fun h => hneq ((strictEq_str_iff s _).mp h)
    have htv : (JSVal.str s).truthy = true := by simp [JSVal.truthy, hs]
    simp [customCheck, confirmPasswordConfig, confirmPasswordValidator, h, ht, htv]
  · intro ht
    rw [hv]
    simp [customCheck, confirmPasswordConfig, confirmPasswordValidator, ht]

/-- C5, amended, at the confirmation "xyz12345" of the passwords "xyz12345"
    and "abc12345". -/
theorem C5_confirmation_field_witness :
    validateField sampleEnv confirmPasswordConfig (JSVal.str "xyz12345")
      [("password", JSVal.str "xyz12345")] = "" ∧
    validateField sampleEnv confirmPasswordConfig (JSVal.str "xyz12345")
      [("password", JSVal.str "abc12345")] = "Passwords do not match" :=
  ⟨(C5_confirmation_field sampleEnv [("password", JSVal.str "xyz12345")] "xyz12345"
      (by decide) (by decide)).1 (by decide),
   (C5_confirmation_field sampleEnv [("password", JSVal.str "abc12345")] "xyz12345"
      (by decide) (by decide)).2.1 (by decide) (by decide)⟩

/-! ## C6: the age validator -/

theorem ageOn_lt_18_iff (today birth : LocalDate) :
    ageOn today birth < 18 ↔ LocalDate.before today birth.plus18 := by
  unfold ageOn LocalDate.before LocalDate.plus18
  simp only [Bool.or_eq_true, Bool.and_eq_true, decide_eq_true_eq]
  split <;> omega

/-- C6: for a value that parses to the birth date `birth`, the `dob`
    validator computes the difference of the years, less one when today's
    (month, day) precedes the birth (month, day), and returns "Must be at
    least 18 years old" exactly when the eighteenth birthday is strictly later
    than today in (year, month, day) order, and nothing otherwise.  A birth
    date exactly 18 years before today passes; every birth date later than
    that, so the one a day later, is rejected.  The same holds through
    `validateField` on the `dob` descriptor for a value the required check
    does not count as empty. -/
theorem C6_age_validator (env : Env) (fd : FormData) (value : JSVal) (birth : LocalDate)
    (htruthy : value.truthy = true)
    (hparse : env.parseDate (jsToString env value ++ "T00:00:00") = some birth) :
    ageOn env.today birth = env.today.year - birth.year -
      (if env.today.month < birth.month ∨
          (env.today.month = birth.month ∧ env.today.day < birth.day) then 1 else 0) ∧
    (dobValidator env fd value = some "Must be at least 18 years old" ↔
      LocalDate.before env.today birth.plus18) ∧
    (¬ LocalDate.before env.today birth.plus18 → dobValidator env fd value = none) ∧
    (birth = env.today.minus18 → dobValidator env fd value = none) ∧
    (LocalDate.before env.today.minus18 birth →
      dobValidator env fd value = some "Must be at least 18 years old") ∧
    (isEmptyValue value = false →
      validateField env (dobConfig env) value fd =
        if ageOn env.today birth < 18 then "Must be at least 18 years old" else "") := by
  have hval : dobValidator env fd value =
      if ageOn env.today birth < 18 then some "Must be at least 18 years old" else none := by
    simp [dobValidator, htruthy, hparse]
  have hiff := ageOn_lt_18_iff env.today birth
  refine ⟨?_, ?_, ?_, ?_, ?_, ?_⟩
  · unfold ageOn
    simp only [Bool.or_eq_true, Bool.and_eq_true, decide_eq_true_eq]
    split <;> split <;> omega
  · rw [hval, ← hiff]
    by_cases h : ageOn env.today birth < 18 <;> simp [h]
  · intro h
    rw [hval, if_neg (fun h2 => h (hiff.mp h2))]
  · intro h
    rw [hval, if_neg]
    rw [hiff, h]
    simp only [LocalDate.before, LocalDate.plus18, LocalDate.minus18]
    omega
  · intro h
    rw [hval, if_pos]
    rw [hiff]
    simp only [LocalDate.before, LocalDate.plus18, LocalDate.minus18] at h ⊢
    omega
  · intro hempty
    have hreq : requiredCheck (dobConfig env) value = none := by
      simp [requiredCheck, hempty]
    have hstr : stringChecks env (dobConfig env) value = none := by
      cases value <;> simp [stringChecks, trimmedChecks, trimmedChecks.trimmedChecksMax,
        trimmedChecks.trimmedChecksPattern, dobConfig]
    have hnum : numberChecks env (dobConfig env) value = none := by
      cases value <;> simp [numberChecks, numberChecks.numberChecksMax, dobConfig]
    rw [validateField_of_checks_none env _ _ _ hreq hstr hnum]
    have hc : (dobConfig env).customValidator = some (dobValidator env) := rfl
    simp only [customCheck, hc, hval]
    by_cases h : ageOn env.today birth < 18 <;> simp [h]

/-- C6 on 15 May 2024: the birth date 15 May 2006 passes and 16 May 2006 is
    rejected. -/
theorem C6_age_validator_witness :
    dobValidator sampleEnv [] (JSVal.str "2006-05-15") = none ∧
    dobValidator sampleEnv [] (JSVal.str "2006-05-16") =
      some "Must be at least 18 years old" :=
  ⟨(C6_age_validator sampleEnv [] (JSVal.str "2006-05-15")
      { year := 2006, month := 4, day := 15 } (by decide) (by decide)).2.2.2.1 (by decide),
   (C6_age_validator sampleEnv [] (JSVal.str "2006-05-16")
      { year := 2006, month := 4, day := 16 } (by decide) (by decide)).2.2.2.2.1
      (by decide)⟩

/-! ## Trimming twice -/

theorem dropWhile_head_not {p : Char → Bool} (cs : List Char) (a : Char) (rest : List Char)
    (h : cs.dropWhile p = a :: rest) : p a = false := by
  induction cs with
  | nil => cases h
  | cons c cs ih =>
    by_cases hc : p c = true
    · rw [List.dropWhile_cons_of_pos hc] at h; exact ih h
    · rw [List.dropWhile_cons_of_neg hc] at h
      cases h
      simpa using hc

theorem trimChars_eq (cs : List Char) :
    trimChars cs = (cs.dropWhile isJSWhitespace).rdropWhile isJSWhitespace := rfl

theorem dropWhile_trimChars (cs : List Char) :
    (trimChars cs).dropWhile isJSWhitespace = trimChars cs := by
  rw [trimChars_eq]
  obtain ⟨t, ht⟩ := List.rdropWhile_prefix isJSWhitespace (cs.dropWhile isJSWhitespace)
  cases hr : (cs.dropWhile isJSWhitespace).rdropWhile isJSWhitespace with
  | nil => rfl
  | cons a r =>
    rw [hr] at ht
    have ha := dropWhile_head_not cs a (r ++ t) ht.symm
    rw [List.dropWhile_cons_of_neg (by simp [ha])]

theorem trimChars_idem (cs : List Char) : trimChars (trimChars cs) = trimChars cs := by
  rw [trimChars_eq (trimChars cs), dropWhile_trimChars, trimChars_eq,
    List.rdropWhile_idempotent]

theorem jsTrim_idem (s : String) : jsTrim (jsTrim s) = jsTrim s := by
  apply String.ext
  exact trimChars_idem s.data

/-! ## The last character of a message -/

theorem toDigitsCore_getLast? (fuel n : Nat) (ds : List Char) (h : ds ≠ []) :
    (Nat.toDigitsCore 10 fuel n ds).getLast? = ds.getLast? := by
  induction fuel generalizing n ds with
  | zero => rfl
  | succ fuel ih =>
    obtain ⟨d, ds', rfl⟩ := List.exists_cons_of_ne_nil h
    simp only [Nat.toDigitsCore]
    split
    · rw [List.getLast?_cons_cons]
    · rw [ih _ _ (List.cons_ne_nil _ _), List.getLast?_cons_cons]

theorem toDigits_getLast? (n : Nat) :
    (Nat.toDigits 10 n).getLast? = some (Nat.digitChar (n % 10)) := by
  simp only [Nat.toDigits, Nat.toDigitsCore]
  split
  · rfl
  · rw [toDigitsCore_getLast? _ _ _ (List.cons_ne_nil _ _)]; rfl

theorem digitChar_mod_ne (n : Nat) : Nat.digitChar (n % 10) ≠ 'd' := by
  have h : n % 10 < 10 := Nat.mod_lt _ (by decide)
  generalize n % 10 = k at h
  interval_cases k <;> decide

theorem toString_nat_getLast? (n : Nat) :
    ∃ c, (toString n).data.getLast? = some c ∧ c ≠ 'd' :=
  ⟨_, toDigits_getLast? n, digitChar_mod_ne n⟩

theorem toString_int_getLast? (m : Int) :
    ∃ c, (toString m).data.getLast? = some c ∧ c ≠ 'd' := by
  cases m with
  | ofNat n => exact toString_nat_getLast? n
  | negSucc n =>
    obtain ⟨c, hc, hne⟩ := toString_nat_getLast? (n + 1)
    refine ⟨c, ?_, hne⟩
    show ("-" ++ toString (n + 1)).data.getLast? = some c
    rw [String.data_append, List.getLast?_append, hc]
    rfl

theorem isNumeralChar_ne (c : Char) (h : isNumeralChar c = true) : c ≠ 'd' := by
  intro hc
  subst hc
  revert h
  decide

theorem numberToString_getLast? (env : Env) (n : JSNum) :
    (numberToString env n).data.getLast? ≠ some 'd' := by
  cases n with
  | nan => show "NaN".data.getLast? ≠ some 'd'; decide
  | negInf => show "-Infinity".data.getLast? ≠ some 'd'; decide
  | posInf => show "Infinity".data.getLast? ≠ some 'd'; decide
  | fin q =>
    show (if q.den = 1 ∧ q.num.natAbs ≤ maxExactInt then toString q.num
      else env.finiteToString q).data.getLast? ≠ some 'd'
    split
    · obtain ⟨c, hc, hne⟩ := toString_int_getLast? q.num
      rw [hc]
      exact fun h => hne (Option.some.inj h)
    · intro h
      have hmem : 'd' ∈ (env.finiteToString q).data := List.mem_of_getLast?_eq_some h
      have hall := env.finiteToString_chars q
      rw [List.all_eq_true] at hall
      exact isNumeralChar_ne 'd' (hall 'd' hmem) rfl

theorem bound_message_ne_required (env : Env) (pre label : String) (m : JSNum)
    (hpre : pre.data.getLast? ≠ some 'd') :
    pre ++ numberToString env m ≠ label ++ " is required" := by
  intro h
  have h1 : (pre ++ numberToString env m).data.getLast? ≠ some 'd' := by
    rw [String.data_append, List.getLast?_append]
    have hn := numberToString_getLast? env m
    cases hl : (numberToString env m).data.getLast? with
    | none => simpa using hpre
    | some c =>
      rw [hl] at hn
      simpa using hn
  have h2 : (label ++ " is required").data.getLast? = some 'd' := by
    rw [String.data_append, List.getLast?_append]; rfl
  rw [h, h2] at h1
  exact h1 rfl

theorem JSNum.truthy_of_lt (len : Nat) (n : JSNum)
    (h : JSNum.lt (JSNum.ofInt len) n = true) : n.truthy = true := by
  cases n with
  | nan => simp [JSNum.lt, JSNum.ofInt] at h
  | negInf => simp [JSNum.lt, JSNum.ofInt] at h
  | posInf => rfl
  | fin q =>
    simp only [JSNum.lt, JSNum.ofInt, decide_eq_true_eq] at h
    have h0 : (0 : ℚ) ≤ ((len : Int) : ℚ) := by exact_mod_cast Int.natCast_nonneg len
    have hq : q ≠ 0 := by
      intro hq
      rw [hq] at h
      exact absurd h (not_lt.mpr h0)
    simp [JSNum.truthy, hq]

/-! ## C7, C8, C9: the string checks -/

/-- C7: for a descriptor without a custom validator and a string whose
    trimmed form is non-empty, is not shorter than `minLength`, not longer
    than `maxLength` and matches `pattern` (each when set), `validateField`
    returns the empty string; so does every string with the same trimmed form,
    whatever whitespace it carries around it, the trimmed form itself
    included: the checks see the trimmed form only. -/
theorem C7_whitespace_insensitive (env : Env) (config : FieldConfig) (v : String)
    (fs : FormData)
    (hcustom : config.customValidator = none) (hne : jsTrim v ≠ "")
    (hmin : ∀ n, config.rules.minLength = some n →
      JSNum.lt (JSNum.ofInt (jsLength (jsTrim v))) n = false)
    (hmax : ∀ n, config.rules.maxLength = some n →
      JSNum.gt (JSNum.ofInt (jsLength (jsTrim v))) n = false)
    (hpat : ∀ test, config.rules.pattern = some test → test (jsTrim v) = true) :
    validateField env config (JSVal.str v) fs = "" ∧
    stringChecks env config (JSVal.str v) = trimmedChecks env config (jsTrim v) ∧
    (∀ w, jsTrim w = jsTrim v → validateField env config (JSVal.str w) fs = "") ∧
    validateField env config (JSVal.str (jsTrim v)) fs = "" := by
  have hchecks : trimmedChecks env config (jsTrim v) = none := by
    have h3 : trimmedChecks.trimmedChecksPattern config (jsTrim v) = none := by
      unfold trimmedChecks.trimmedChecksPattern
      cases hp : config.rules.pattern with
      | none => rfl
      | some test => simp [hpat test hp]
    have h2 : trimmedChecks.trimmedChecksMax env config (jsTrim v) = none := by
      unfold trimmedChecks.trimmedChecksMax
      cases hm : config.rules.maxLength with
      | none => exact h3
      | some n => simp [hmax n hm, h3]
    unfold trimmedChecks
    cases hm : config.rules.minLength with
    | none => exact h2
    | some n => simp [hmin n hm, h2]
  have hall : ∀ w, jsTrim w = jsTrim v → validateField env config (JSVal.str w) fs = "" := by
    intro w hw
    rw [validateField_str env config w fs (by rw [hw]; exact hne), hw, hchecks]
    simp [customCheck, hcustom]
  refine ⟨hall v rfl, ?_, hall, hall _ (jsTrim_idem v)⟩
  simp [stringChecks, hne]

/-- C7 at `usernameConfig`: a user name padded with blanks and a line
    feed passes. -/
theorem C7_whitespace_insensitive_witness :
    validateField sampleEnv usernameConfig (JSVal.str "  user_1 \n") [] = "" :=
  (C7_whitespace_insensitive sampleEnv usernameConfig "  user_1 \n" [] rfl (by decide)
    (by intro n h; cases h; decide) (by intro n h; cases h; decide)
    (by intro test h; cases h; decide)).1

/-- C8: for a descriptor with `minLength = n` and a non-blank string whose
    trimmed length is less than `n`, `validateField` returns exactly "Must be
    at least n characters", with `n` as the template literal prints it,
    whatever `maxLength`, `pattern` and the custom validator are.  For an
    integer `n` up to 2^53 that is the decimal numeral of `n`. -/
theorem C8_minLength_first (env : Env) (config : FieldConfig) (v : String) (fs : FormData)
    (n : JSNum)
    (hmin : config.rules.minLength = some n) (hne : jsTrim v ≠ "")
    (hshort : JSNum.lt (JSNum.ofInt (jsLength (jsTrim v))) n = true) :
    validateField env config (JSVal.str v) fs =
      "Must be at least " ++ numberToString env n ++ " characters" ∧
    (∀ k : Int, n = JSNum.ofInt k → k.natAbs ≤ maxExactInt →
      validateField env config (JSVal.str v) fs =
        "Must be at least " ++ toString k ++ " characters") := by
  have ht := JSNum.truthy_of_lt _ n hshort
  have hv : validateField env config (JSVal.str v) fs =
      "Must be at least " ++ numberToString env n ++ " characters" := by
    rw [validateField_str env config v fs hne]
    simp [trimmedChecks, hmin, ht, hshort]
  refine ⟨hv, ?_⟩
  intro k hk hsafe
  rw [hv, hk, numberToString_ofInt env k hsafe]

/-- C8 at `usernameConfig` (minLength 3, and a pattern the value violates
    too). -/
theorem C8_minLength_first_witness :
    validateField sampleEnv usernameConfig (JSVal.str " a! ") [] =
      "Must be at least 3 characters" :=
  (C8_minLength_first sampleEnv usernameConfig " a! " [] (JSNum.ofInt 3) rfl (by decide)
    (by decide)).2 3 rfl (by decide)

/-- C9 fails as stated: with `maxLength = 0` the check is skipped, and a
    non-blank string gets no message. -/
theorem C9_counterexample :
    zeroMaxLengthConfig.rules.maxLength = some (JSNum.ofInt 0) ∧
    zeroMaxLengthConfig.rules.minLength = none ∧
    jsTrim "a" ≠ "" ∧ 0 < jsLength (jsTrim "a") ∧
    validateField sampleEnv zeroMaxLengthConfig (JSVal.str "a") [] = "" ∧
    validateField sampleEnv zeroMaxLengthConfig (JSVal.str "a") [] ≠
      "Must be at most 0 characters" :=
  ⟨rfl, rfl, by decide, by decide, by decide, by decide⟩

/-- C9, amended: for a descriptor with `maxLength = n`, `n` a positive
    integer, and a non-blank string whose trimmed length exceeds `n` and does
    not violate `minLength`, `validateField` returns exactly "Must be at most
    n characters", with `n` as the template literal prints it: the decimal
    numeral of `n` for every `n` up to 2^53, which bounds the length of a
    string. -/
theorem C9_maxLength (env : Env) (config : FieldConfig) (v : String) (fs : FormData)
    (n : Int)
    (hmax : config.rules.maxLength = some (JSNum.ofInt n)) (hpos : 0 < n)
    (hne : jsTrim v ≠ "")
    (hlong : n < (jsLength (jsTrim v) : Int))
    (hmin : ∀ m, config.rules.minLength = some m →
      JSNum.lt (JSNum.ofInt (jsLength (jsTrim v))) m = false) :
    validateField env config (JSVal.str v) fs =
      "Must be at most " ++ numberToString env (JSNum.ofInt n) ++ " characters" ∧
    (n.natAbs ≤ maxExactInt →
      validateField env config (JSVal.str v) fs =
        "Must be at most " ++ toString n ++ " characters") := by
  have hn : n ≠ 0 := by omega
  have h2 : trimmedChecks.trimmedChecksMax env config (jsTrim v) =
      some ("Must be at most " ++ numberToString env (JSNum.ofInt n) ++ " characters") := by
    simp [trimmedChecks.trimmedChecksMax, hmax, JSNum.truthy_ofInt, JSNum.gt_ofInt, hn, hlong]
  have h1 : trimmedChecks env config (jsTrim v) =
      some ("Must be at most " ++ numberToString env (JSNum.ofInt n) ++ " characters") := by
    unfold trimmedChecks
    cases hm : config.rules.minLength with
    | none => exact h2
    | some m => simp [hmin m hm, h2]
  have hv : validateField env config (JSVal.str v) fs =
      "Must be at most " ++ numberToString env (JSNum.ofInt n) ++ " characters" := by
    rw [validateField_str env config v fs hne, h1]
  refine ⟨hv, ?_⟩
  intro hsafe
  rw [hv, numberToString_ofInt env n hsafe]

/-- C9, amended, at `usernameConfig` (maxLength 20) and 21 characters. -/
theorem C9_maxLength_witness :
    validateField sampleEnv usernameConfig (JSVal.str " abcdefghijklmnopqrstu ") [] =
      "Must be at most 20 characters" :=
  (C9_maxLength sampleEnv usernameConfig " abcdefghijklmnopqrstu " [] 20 rfl (by decide)
    (by decide) (by decide) (by intro m h; cases h; decide)).2 (by decide)

/-! ## C10: the numeric checks -/

theorem requiredCheck_num (config : FieldConfig) (v : JSNum) (hv : v.isNaN = false) :
    requiredCheck config (JSVal.num v) = none := by
  cases v <;> simp_all [requiredCheck, isEmptyValue, JSVal.strictEq, JSNum.isNaN]

theorem validateField_num (env : Env) (config : FieldConfig) (v : JSNum) (fs : FormData)
    (hv : v.isNaN = false) :
    validateField env config (JSVal.num v) fs =
      match numberChecks env config (JSVal.num v) with
      | some error => error
      | none => (customCheck config (JSVal.num v) fs).getD "" := by
  simp only [validateField, requiredCheck_num config v hv, stringChecks]
  cases numberChecks env config (JSVal.num v) with
  | some error => rfl
  | none => cases customCheck config (JSVal.num v) fs <;> rfl

theorem numberChecks_cases (env : Env) (config : FieldConfig) (v : JSNum)
    (hv : v.isNaN = false) :
    numberChecks env config (JSVal.num v) = none ∨
    (∃ m, numberChecks env config (JSVal.num v) =
      some ("Must be at least " ++ numberToString env m)) ∨
    (∃ m, numberChecks env config (JSVal.num v) =
      some ("Must be at most " ++ numberToString env m)) := by
  have hmax : numberChecks.numberChecksMax env config v = none ∨
      ∃ m, numberChecks.numberChecksMax env config v =
        some ("Must be at most " ++ numberToString env m) := by
    unfold numberChecks.numberChecksMax
    cases config.rules.max with
    | none => exact Or.inl rfl
    | some M =>
      simp only []
      split
      · exact Or.inr ⟨M, rfl⟩
      · exact Or.inl rfl
  simp only [numberChecks, hv]
  cases config.rules.min with
  | none =>
    rcases hmax with h | h
    · exact Or.inl (by simpa using h)
    · exact Or.inr (Or.inr (by simpa using h))
  | some m =>
    by_cases hlt : JSNum.lt v m = true
    · exact Or.inr (Or.inl ⟨m, by simp [hlt]⟩)
    · rcases hmax with h | h
      · exact Or.inl (by simpa [hlt] using h)
      · exact Or.inr (Or.inr (by simpa [hlt] using h))

/-- C10 fails as stated: a custom validator runs on the number 0, and when
    it returns the text of the required message, that is what `validateField`
    reports for 0. -/
theorem C10_counterexample :
    (JSNum.fin 0).isNaN = false ∧
    validateField sampleEnv amountConfig (JSVal.num (JSNum.fin 0)) [] =
      amountConfig.label ++ " is required" :=
  ⟨rfl, by decide⟩

/-- C10, amended: for every descriptor, required or not, and every number
    `v` that is not `NaN`, 0 and bounds equal to 0 included: the required
    check does not count `v` as empty; if `min` is set and `v < min` the
    result is exactly "Must be at least min"; otherwise if `max` is set and
    `v > max` it is exactly "Must be at most max" (the bound as the template
    literal prints it, the decimal numeral for an integer up to 2^53);
    otherwise it is what the custom validator step gives.  For a descriptor
    without a custom validator the result is never the required message. -/
theorem C10_numeric_checks (env : Env) (config : FieldConfig) (v : JSNum) (fs : FormData)
    (hv : v.isNaN = false) :
    requiredCheck config (JSVal.num v) = none ∧
    (∀ m, config.rules.min = some m → JSNum.lt v m = true →
      validateField env config (JSVal.num v) fs =
        "Must be at least " ++ numberToString env m) ∧
    (∀ M, config.rules.max = some M →
      (∀ m, config.rules.min = some m → JSNum.lt v m = false) →
      JSNum.gt v M = true →
      validateField env config (JSVal.num v) fs =
        "Must be at most " ++ numberToString env M) ∧
    ((∀ m, config.rules.min = some m → JSNum.lt v m = false) →
      (∀ M, config.rules.max = some M → JSNum.gt v M = false) →
      validateField env config (JSVal.num v) fs =
        (customCheck config (JSVal.num v) fs).getD "") ∧
    (∀ k : Int, k.natAbs ≤ maxExactInt →
      numberToString env (JSNum.ofInt k) = toString k) ∧
    (config.customValidator = none →
      validateField env config (JSVal.num v) fs ≠ config.label ++ " is required") := by
  have hreq := requiredCheck_num config v hv
  have hval := validateField_num env config v fs hv
  have hmaxOnly : (∀ m, config.rules.min = some m → JSNum.lt v m = false) →
      numberChecks env config (JSVal.num v) = numberChecks.numberChecksMax env config v := by
    intro hmin
    simp only [numberChecks, hv]
    cases hm : config.rules.min with
    | none => rfl
    | some m => simp [hmin m hm]
  refine ⟨hreq, ?_, ?_, ?_, fun k hk => numberToString_ofInt env k hk, ?_⟩
  · intro m hm hlt
    rw [hval]
    simp [numberChecks, hv, hm, hlt]
  · intro M hM hmin hgt
    rw [hval, hmaxOnly hmin]
    simp [numberChecks.numberChecksMax, hM, hgt]
  · intro hmin hmax
    rw [hval, hmaxOnly hmin]
    unfold numberChecks.numberChecksMax
    cases hM : config.rules.max with
    | none => rfl
    | some M => simp [hmax M hM]
  · intro hcustom
    rw [hval]
    rcases numberChecks_cases env config v hv with h | ⟨m, h⟩ | ⟨m, h⟩
    · rw [h]
      simp only [customCheck, hcustom, Option.getD_none]
      exact (required_message_ne_empty _).symm
    · rw [h]
      exact bound_message_ne_required env _ _ m (by decide)
    · rw [h]
      exact bound_message_ne_required env _ _ m (by decide)

/-- C10, amended, at the schema's numeric fields: age 17 and 101, salary 0
    (equal to its lower bound 0) and salary -1. -/
theorem C10_numeric_checks_witness :
    validateField sampleEnv ageConfig (JSVal.num (JSNum.fin 17)) [] = "Must be at least 18" ∧
    validateField sampleEnv ageConfig (JSVal.num (JSNum.fin 101)) [] =
      "Must be at most 100" ∧
    validateField sampleEnv salaryConfig (JSVal.num (JSNum.fin 0)) [] = "" ∧
    validateField sampleEnv ageConfig (JSVal.num (JSNum.fin 0)) [] ≠ "Age is required" ∧
    validateField sampleEnv salaryConfig (JSVal.num (JSNum.fin (-1))) [] =
      "Must be at least 0" :=
  ⟨((C10_numeric_checks sampleEnv ageConfig (JSNum.fin 17) [] rfl).2.1 (JSNum.ofInt 18) rfl
      (by decide)).trans (by decide),
   ((C10_numeric_checks sampleEnv ageConfig (JSNum.fin 101) [] rfl).2.2.1 (JSNum.ofInt 100)
      rfl (by intro m h; cases h; decide) (by decide)).trans (by decide),
   (C10_numeric_checks sampleEnv salaryConfig (JSNum.fin 0) [] rfl).2.2.2.1
     (by intro m h; cases h; decide) (by intro M h; cases h; decide),
   (C10_numeric_checks sampleEnv ageConfig (JSNum.fin 0) [] rfl).2.2.2.2.2 rfl,
   ((C10_numeric_checks sampleEnv salaryConfig (JSNum.fin (-1)) [] rfl).2.1 (JSNum.ofInt 0)
      rfl (by decide)).trans (by decide)⟩

/-! ## C11: value coercion -/

theorem coerceValue_eq_reference (config : FieldConfig) (e : ChangeEvent) :
    coerceValue config e = coerceReference (coercionKind config) e := by
  unfold coerceValue coercionKind
  by_cases h1 : config.component = "checkbox"
  · simp [h1, coerceReference]
  · by_cases h2 : config.type = some "number"
    · simp only [h1, h2, if_false, if_true, coerceReference]
      cases e.valueAsNumber <;> simp [JSNum.isNaN]
    · simp [h1, h2, coerceReference]

theorem errors_of_mem (env : Env) (fd : FormData) (c : FieldConfig)
    (hc : c ∈ fieldConfigs env) :
    JSObj.get? (validateAll env (fieldConfigs env) fd []) c.key =
      some (validateField env c (fd.read c.key) fd) :=
  get?_validateAll_of_mem env _ _ _ (fieldConfigs_keys_nodup env) c hc

/-- C11: the value `handleChange` stores is the reference coercion: the
    checked boolean for a checkbox descriptor, for a numeric input the parsed
    number, or the empty string (not 0, not null) when it is `NaN`, and the
    raw string, untrimmed, for every other descriptor.  So an unparseable
    entry in a required numeric field of the schema is reported by the same
    pass as "label is required". -/
theorem C11_value_coercion (env : Env) (st : FormState) (config : FieldConfig)
    (e : ChangeEvent) :
    coerceValue config e = coerceReference (coercionKind config) e ∧
    (handleChange env st config e).formData =
      JSObj.set st.formData config.key (coerceReference (coercionKind config) e) ∧
    (config.component = "checkbox" → coerceValue config e = JSVal.bool e.checked) ∧
    (config.component ≠ "checkbox" → config.type = some "number" →
      e.valueAsNumber.isNaN = false → coerceValue config e = JSVal.num e.valueAsNumber) ∧
    (config.component ≠ "checkbox" → config.type = some "number" →
      e.valueAsNumber = JSNum.nan →
      coerceValue config e = JSVal.str "" ∧
      coerceValue config e ≠ JSVal.num (JSNum.fin 0) ∧ coerceValue config e ≠ JSVal.null) ∧
    (config.component ≠ "checkbox" → config.type ≠ some "number" →
      coerceValue config e = JSVal.str e.value) ∧
    (config ∈ fieldConfigs env → config.component ≠ "checkbox" →
      config.type = some "number" → config.rules.required = true →
      e.valueAsNumber = JSNum.nan →
      JSObj.get? (handleChange env st config e).errors config.key =
        some (config.label ++ " is required")) ∧
    JSObj.get? (handleChange env st ageConfig (numberEvent JSNum.nan "12e")).errors "age" =
      some "Age is required" := by
  have hnan : config.component ≠ "checkbox" → config.type = some "number" →
      e.valueAsNumber = JSNum.nan → coerceValue config e = JSVal.str "" := by
    intro h1 h2 h3
    simp [coerceValue, h1, h2, h3, JSNum.isNaN]
  have hreq : ∀ c : FieldConfig, ∀ ev : ChangeEvent, c ∈ fieldConfigs env →
      c.component ≠ "checkbox" → c.type = some "number" → c.rules.required = true →
      ev.valueAsNumber = JSNum.nan →
      JSObj.get? (handleChange env st c ev).errors c.key =
        some (c.label ++ " is required") := by
    intro c ev hc h1 h2 h3 h4
    have hv : coerceValue c ev = JSVal.str "" := by
      simp [coerceValue, h1, h2, h4, JSNum.isNaN]
    rw [handleChange_errors, errors_of_mem env _ c hc, FormData.read_set, if_pos rfl, hv,
      validateField_of_required_empty env c _ _ h3 (Or.inr (Or.inr (Or.inl rfl)))]
  refine ⟨coerceValue_eq_reference config e, ?_, ?_, ?_, ?_, ?_, hreq config e, ?_⟩
  · rw [handleChange_formData, coerceValue_eq_reference]
  · intro h; simp [coerceValue, h]
  · intro h1 h2 h3; simp [coerceValue, h1, h2, h3]
  · intro h1 h2 h3
    rw [hnan h1 h2 h3]
    exact ⟨rfl, by simp, by simp⟩
  · intro h1 h2; simp [coerceValue, h1, h2]
  · exact hreq ageConfig (numberEvent JSNum.nan "12e") (by simp [fieldConfigs])
      (by decide) rfl rfl rfl

/-! ## C12: the frame of a change -/

theorem handleSubmit_formData (env : Env) (st : FormState) :
    (handleSubmit env st).1.formData = st.formData := by
  simp only [handleSubmit]

/-- C12: the value-set after `handleChange` on a descriptor agrees with the
    old one on every key other than the descriptor's, and maps that key to the
    coerced value; `handleSubmit` leaves the value-set unchanged. -/
theorem C12_change_frame (env : Env) (st : FormState) (config : FieldConfig)
    (e : ChangeEvent) :
    (∀ k, k ≠ config.key →
      JSObj.get? (handleChange env st config e).formData k = JSObj.get? st.formData k) ∧
    (∀ k, k ≠ config.key →
      (handleChange env st config e).formData.read k = st.formData.read k) ∧
    JSObj.get? (handleChange env st config e).formData config.key =
      some (coerceValue config e) ∧
    (handleChange env st config e).formData.read config.key = coerceValue config e ∧
    (handleSubmit env st).1.formData = st.formData := by
  rw [handleChange_formData]
  refine ⟨?_, ?_, ?_, ?_, ?_⟩
  · intro k hk
    rw [JSObj.get?_set, if_neg (fun h => hk h.symm)]
  · intro k hk
    rw [FormData.read_set, if_neg (fun h => hk h.symm)]
  · rw [JSObj.get?_set, if_pos rfl]
  · rw [FormData.read_set, if_pos rfl]
  · exact handleSubmit_formData env st

/-! ## C13: the pass is idempotent -/

/-- C13: for a fixed runtime, `handleSubmit` applied twice gives the same
    error-set (and the same value-set and submissions) as applied once, and a
    `handleSubmit` right after a `handleChange` leaves the error-set of the
    `handleChange` as it is: both handlers compute the pass `validateAll` of
    the schema on the value-set, from an empty error-set. -/
theorem C13_pass_idempotent (env : Env) (st : FormState) (config : FieldConfig)
    (e : ChangeEvent) :
    (handleSubmit env st).1.errors = validateAll env (fieldConfigs env) st.formData [] ∧
    (handleChange env st config e).errors =
      validateAll env (fieldConfigs env) (handleChange env st config e).formData [] ∧
    (handleSubmit env (handleSubmit env st).1).1.errors = (handleSubmit env st).1.errors ∧
    (handleSubmit env (handleSubmit env st).1).1.formData = (handleSubmit env st).1.formData ∧
    (handleSubmit env (handleSubmit env st).1).2 = (handleSubmit env st).2 ∧
    (handleSubmit env (handleChange env st config e)).1.errors =
      (handleChange env st config e).errors := by
  have hfd := handleSubmit_formData env st
  refine ⟨handleSubmit_errors env st, ?_, ?_, ?_, ?_, ?_⟩
  · rw [handleChange_errors, handleChange_formData]
  · rw [handleSubmit_errors env (handleSubmit env st).1, handleSubmit_errors env st, hfd]
  · rw [handleSubmit_formData env (handleSubmit env st).1]
  · rw [handleSubmit_sink env (handleSubmit env st).1, handleSubmit_sink env st, hfd]
  · rw [handleSubmit_errors env (handleChange env st config e), handleChange_errors,
      handleChange_formData]

/-! ## C14: totality -/

theorem isEmptyChecked_ok (value : JSVal) :
    isEmptyChecked value = Except.ok (isEmptyValue value) := by
  cases value with
  | undefined => rfl
  | null => rfl
  | bool b => cases b <;> rfl
  | num n => cases n <;> rfl
  | str s =>
    by_cases h : s = ""
    · subst h; rfl
    · simp [isEmptyChecked, isEmptyValue, JSVal.strictEq, jsTypeof, callTrim, Except.bind, h]

theorem requiredCheckChecked_ok (config : FieldConfig) (value : JSVal) :
    requiredCheckChecked config value = Except.ok (requiredCheck config value) := by
  unfold requiredCheckChecked requiredCheck
  rw [isEmptyChecked_ok]
  cases config.rules.required <;> cases isEmptyValue value <;> rfl

theorem patternChecked_ok (config : FieldConfig) (trimmed : String) :
    patternChecked config trimmed =
      Except.ok (trimmedChecks.trimmedChecksPattern config trimmed) := by
  unfold patternChecked trimmedChecks.trimmedChecksPattern
  cases config.rules.pattern with
  | none => rfl
  | some test => cases h : test trimmed <;> simp [callTest, Except.bind, h]

theorem trimmedChecksChecked_ok (env : Env) (config : FieldConfig) (trimmed : String) :
    trimmedChecksChecked env config trimmed = Except.ok (trimmedChecks env config trimmed) := by
  have hmax : trimmedChecksChecked.maxChecked env config trimmed =
      Except.ok (trimmedChecks.trimmedChecksMax env config trimmed) := by
    unfold trimmedChecksChecked.maxChecked trimmedChecks.trimmedChecksMax
    cases config.rules.maxLength with
    | none => exact patternChecked_ok config trimmed
    | some n =>
      simp only []
      split
      · rfl
      · exact patternChecked_ok config trimmed
  unfold trimmedChecksChecked trimmedChecks
  cases config.rules.minLength with
  | none => exact hmax
  | some n =>
    simp only []
    split
    · rfl
    · exact hmax

theorem stringChecksChecked_ok (env : Env) (config : FieldConfig) (value : JSVal) :
    stringChecksChecked env config value = Except.ok (stringChecks env config value) := by
  cases value with
  | str s =>
    by_cases h : jsTrim s = ""
    · simp [stringChecksChecked, stringChecks, jsTypeof, callTrim, Except.bind, h]
    · simp [stringChecksChecked, stringChecks, jsTypeof, callTrim, Except.bind, h,
        trimmedChecksChecked_ok]
  | _ => rfl

theorem numberChecksChecked_ok (env : Env) (config : FieldConfig) (value : JSVal) :
    numberChecksChecked env config value = Except.ok (numberChecks env config value) := by
  have hmax : ∀ v, numberChecksChecked.maxChecked env config v =
      Except.ok (numberChecks.numberChecksMax env config v) := by
    intro v
    unfold numberChecksChecked.maxChecked numberChecks.numberChecksMax
    cases config.rules.max with
    | none => rfl
    | some m => simp only []; split <;> rfl
  cases value with
  | num v =>
    simp only [numberChecksChecked, numberChecks, jsTypeof, numberOperand, Except.bind,
      if_true]
    cases hn : v.isNaN with
    | true => rfl
    | false =>
      simp only [Bool.not_false, if_true]
      cases config.rules.min with
      | none => exact hmax v
      | some m =>
        simp only []
        split
        · rfl
        · exact hmax v
  | _ => rfl

theorem customCheckChecked_ok (config : FieldConfig) (value : JSVal) (formData : FormData) :
    customCheckChecked config value formData =
      Except.ok (customCheck config value formData) := by
  unfold customCheckChecked customCheck
  cases config.customValidator with
  | none => rfl
  | some validator =>
    simp only [Option.isSome_some, if_true, callValidator, Except.bind]
    cases validator formData value with
    | none => rfl
    | some message => simp only []; split <;> rfl

theorem validateFieldChecked_ok (env : Env) (config : FieldConfig) (value : JSVal) (formData : FormData) :
    validateFieldChecked env config value formData =
      Except.ok (validateField env config value formData) := by
  unfold validateFieldChecked validateField
  rw [requiredCheckChecked_ok, stringChecksChecked_ok, numberChecksChecked_ok,
    customCheckChecked_ok]
  cases requiredCheck config value with
  | some e => rfl
  | none =>
    cases stringChecks env config value with
    | some e => rfl
    | none =>
      cases numberChecks env config value with
      | some e => rfl
      | none => cases customCheck config value formData <;> rfl

/-- C14: for every descriptor of the default schema, every value-set and
    every value (a string, a number, `NaN` included, a boolean, `null` or
    `undefined`, whatever the kind of the field), the evaluation of
    `validateField` over the operations that can throw (`value.trim()`,
    `pattern.test`, the call of the custom validator) throws nothing and
    returns a string, the one `validateField` computes.  The two validators
    of the schema call no method of a value.  The same holds for every
    descriptor, since each such call sits behind its guard. -/
theorem C14_totality (env : Env) (value : JSVal) (formData : FormData) :
    (∀ config ∈ fieldConfigs env,
      validateFieldChecked env config value formData =
        Except.ok (validateField env config value formData) ∧
      (∃ message : String, validateFieldChecked env config value formData = Except.ok message) ∧
      (∀ error : JSError, validateFieldChecked env config value formData ≠ Except.error error)) ∧
    (∀ config : FieldConfig, validateFieldChecked env config value formData =
      Except.ok (validateField env config value formData)) := by
  refine ⟨?_, fun config => validateFieldChecked_ok env config value formData⟩
  intro config _
  have h := validateFieldChecked_ok env config value formData
  refine ⟨h, ⟨_, h⟩, ?_⟩
  intro error herr
  rw [h] at herr
  cases herr

/-- C14 at the `dob` descriptor of the schema and the number 5, a value of
    the wrong kind for a date field. -/
theorem C14_totality_witness :
    dobConfig sampleEnv ∈ fieldConfigs sampleEnv ∧
    validateFieldChecked sampleEnv (dobConfig sampleEnv) (JSVal.num (JSNum.fin 5)) [] =
      Except.ok "Invalid date" :=
  ⟨by simp [fieldConfigs],
   ((C14_totality sampleEnv (JSVal.num (JSNum.fin 5)) []).1 (dobConfig sampleEnv)
      (by simp [fieldConfigs])).1.trans
     (congrArg Except.ok
       (by decide : validateField sampleEnv (dobConfig sampleEnv) (JSVal.num (JSNum.fin 5)) [] =
         "Invalid date"))⟩

/-! ## C15: the custom validator runs last -/

/-- C15: for a descriptor with a custom validator: when the required, string
    and numeric checks all pass, `validateField` returns the validator's
    message as it is when that message is non-empty, and the empty string when
    the validator returns `null` or the empty string; when one of the built-in
    checks fails, `validateField` returns the built-in message, whatever the
    validator would say. -/
theorem C15_custom_last (env : Env) (config : FieldConfig)
    (validator : FormData → JSVal → Option String) (value : JSVal) (fs : FormData)
    (hcustom : config.customValidator = some validator) :
    (requiredCheck config value = none → stringChecks env config value = none →
      numberChecks env config value = none →
      (∀ m, validator fs value = some m → m ≠ "" → validateField env config value fs = m) ∧
      (validator fs value = none ∨ validator fs value = some "" →
        validateField env config value fs = "")) ∧
    (∀ error, requiredCheck config value = some error →
      validateField env config value fs = error) ∧
    (∀ error, requiredCheck config value = none → stringChecks env config value = some error →
      validateField env config value fs = error) ∧
    (∀ error, requiredCheck config value = none → stringChecks env config value = none →
      numberChecks env config value = some error → validateField env config value fs = error) := by
  refine ⟨?_, ?_, ?_, ?_⟩
  · intro hr hs hn
    rw [validateField_of_checks_none env config value fs hr hs hn]
    refine ⟨?_, ?_⟩
    · intro m hm hne
      simp [customCheck, hcustom, hm, hne]
    · intro h
      rcases h with h | h <;> simp [customCheck, hcustom, h]
  · intro error hr
    simp only [validateField, hr]
  · intro error hr hs
    simp only [validateField, hr, hs]
  · intro error hr hs hn
    simp only [validateField, hr, hs, hn]

/-- C15 at `confirmPassword`: a confirmation shorter than 8 characters that
    also differs from the password gets the `minLength` message, and one of 8
    characters that differs gets the validator's message. -/
theorem C15_custom_last_witness :
    validateField sampleEnv confirmPasswordConfig (JSVal.str "abc") passwordData =
      "Must be at least 8 characters" ∧
    validateField sampleEnv confirmPasswordConfig (JSVal.str "abc12345") passwordData =
      "Passwords do not match" :=
  ⟨(C15_custom_last sampleEnv confirmPasswordConfig confirmPasswordValidator (JSVal.str "abc")
      passwordData rfl).2.2.1 "Must be at least 8 characters" (by decide) (by decide),
   ((C15_custom_last sampleEnv confirmPasswordConfig confirmPasswordValidator (JSVal.str "abc12345")
      passwordData rfl).1 (by decide) (by decide) (by decide)).1 "Passwords do not match"
      (by decide) (by decide)⟩

/-! ## C16: one entry for each descriptor -/

theorem keys_map_entries (cs : List FieldConfig) (f : FieldConfig → String) :
    JSObj.keys (cs.map (fun c => (c.key, f c))) = cs.map (fun c => c.key) := by
  simp [JSObj.keys, Function.comp_def]

/-- C16: the error-set `handleChange` and `handleSubmit` produce has exactly
    one entry for each descriptor of the schema, in schema order: the key of
    the descriptor with the result of `validateField` for it on the value-set,
    whatever the earlier descriptors gave.  Its keys are exactly the 20 keys
    of the schema, each once. -/
theorem C16_every_field_evaluated (env : Env) (st : FormState) (config : FieldConfig)
    (e : ChangeEvent) :
    (handleChange env st config e).errors =
      (fieldConfigs env).map (fun c =>
        (c.key, validateField env c ((handleChange env st config e).formData.read c.key)
          (handleChange env st config e).formData)) ∧
    (handleSubmit env st).1.errors =
      (fieldConfigs env).map (fun c =>
        (c.key, validateField env c (st.formData.read c.key) st.formData)) ∧
    JSObj.keys (handleChange env st config e).errors =
      (fieldConfigs env).map (fun c => c.key) ∧
    JSObj.keys (handleSubmit env st).1.errors = (fieldConfigs env).map (fun c => c.key) ∧
    (JSObj.keys (handleSubmit env st).1.errors).Nodup ∧
    (handleChange env st config e).errors.length = 20 ∧
    (handleSubmit env st).1.errors.length = 20 := by
  have hc : (handleChange env st config e).errors =
      (fieldConfigs env).map (fun c =>
        (c.key, validateField env c ((handleChange env st config e).formData.read c.key)
          (handleChange env st config e).formData)) := by
    rw [handleChange_errors, handleChange_formData, validateAll_schema]
  have hs : (handleSubmit env st).1.errors =
      (fieldConfigs env).map (fun c =>
        (c.key, validateField env c (st.formData.read c.key) st.formData)) := by
    rw [handleSubmit_errors, validateAll_schema]
  have hlen : (fieldConfigs env).length = 20 := rfl
  refine ⟨hc, hs, ?_, ?_, ?_, ?_, ?_⟩
  · rw [hc, keys_map_entries]
  · rw [hs, keys_map_entries]
  · rw [hs, keys_map_entries]; exact fieldConfigs_keys_nodup env
  · rw [hc, List.length_map, hlen]
  · rw [hs, List.length_map, hlen]

/-! ## C17: the schema's validators on empty values -/

/-- C17 fails as stated: a whitespace-only string is empty for the required
    check but truthy, so the confirmation validator compares it with the
    password, and the date validator parses it. -/
theorem C17_counterexample :
    SpecEmpty (JSVal.str "  ") ∧
    confirmPasswordValidator passwordData (JSVal.str "  ") = some "Passwords do not match" ∧
    dobValidator sampleEnv [] (JSVal.str "  ") = some "Invalid date" :=
  ⟨Or.inr (Or.inr (Or.inr (Or.inl ⟨"  ", rfl, by decide⟩))), by decide, by decide⟩

/-- C17, amended: each of the two validators of the schema returns no error
    for every value-set and every value that is `null`, `undefined`, the empty
    string, `NaN` or `false`.  A whitespace-only string is not guarded by the
    validators; on the two descriptors, both required, every empty value, the
    whitespace-only string included, is stopped by the required check before
    the validator runs. -/
theorem C17_validators_guard_falsy (env : Env) (fs : FormData) (value : JSVal)
    (hfalsy : value = JSVal.null ∨ value = JSVal.undefined ∨ value = JSVal.str "" ∨
      value = JSVal.num JSNum.nan ∨ value = JSVal.bool false) :
    confirmPasswordValidator fs value = none ∧ dobValidator env fs value = none ∧
    (∀ blank, SpecEmpty blank →
      validateField env confirmPasswordConfig blank fs = "Confirm Password is required" ∧
      validateField env (dobConfig env) blank fs = "Date of Birth is required") := by
  have ht : value.truthy = false := by
    rcases hfalsy with h | h | h | h | h <;> subst h <;> rfl
  refine ⟨?_, ?_, ?_⟩
  · simp [confirmPasswordValidator, ht]
  · simp [dobValidator, ht]
  · intro blank hblank
    exact ⟨validateField_of_required_empty env confirmPasswordConfig blank fs rfl hblank,
      validateField_of_required_empty env (dobConfig env) blank fs rfl hblank⟩

/-- C17, amended, at the empty string. -/
theorem C17_validators_guard_falsy_witness :
    confirmPasswordValidator passwordData (JSVal.str "") = none ∧
    dobValidator sampleEnv passwordData (JSVal.str "") = none :=
  ⟨(C17_validators_guard_falsy sampleEnv passwordData (JSVal.str "")
      (Or.inr (Or.inr (Or.inl rfl)))).1,
   (C17_validators_guard_falsy sampleEnv passwordData (JSVal.str "")
      (Or.inr (Or.inr (Or.inl rfl)))).2.1⟩

/-! ## C18: the keys of the schema -/

theorem fieldConfigs_key_inj (env : Env) (i j : Nat) (hi : i < (fieldConfigs env).length)
    (hj : j < (fieldConfigs env).length)
    (hkey : ((fieldConfigs env)[i]).key = ((fieldConfigs env)[j]).key) : i = j := by
  have hi2 : i < ((fieldConfigs env).map (fun c => c.key)).length := by
    rw [List.length_map]; exact hi
  have hj2 : j < ((fieldConfigs env).map (fun c => c.key)).length := by
    rw [List.length_map]; exact hj
  have h : ((fieldConfigs env).map (fun c => c.key))[i] =
      ((fieldConfigs env).map (fun c => c.key))[j] := by
    rw [List.getElem_map, List.getElem_map]; exact hkey
  exact ((fieldConfigs_keys_nodup env).getElem_inj_iff).mp h

/-- C18: the default schema has 20 descriptors and their keys are pairwise
    distinct: descriptors at different positions have different keys.  So in
    the error-set built by the pass the entry under a descriptor's key is that
    descriptor's result, and a change on one descriptor leaves the value
    stored under the key of every other descriptor of the schema. -/
theorem C18_schema_keys_distinct (env : Env) :
    (fieldConfigs env).length = 20 ∧
    ((fieldConfigs env).map (fun c => c.key)).Nodup ∧
    List.Pairwise (fun c d => c.key ≠ d.key) (fieldConfigs env) ∧
    (∀ (i j : Nat) (hi : i < (fieldConfigs env).length)
      (hj : j < (fieldConfigs env).length), i ≠ j →
      ((fieldConfigs env)[i]).key ≠ ((fieldConfigs env)[j]).key) ∧
    (∀ (fd : FormData) (c : FieldConfig), c ∈ fieldConfigs env →
      JSObj.get? (validateAll env (fieldConfigs env) fd []) c.key =
        some (validateField env c (fd.read c.key) fd)) ∧
    (∀ (st : FormState) (e : ChangeEvent) (i j : Nat) (hi : i < (fieldConfigs env).length)
      (hj : j < (fieldConfigs env).length), i ≠ j →
      (handleChange env st ((fieldConfigs env)[i]) e).formData.read
        ((fieldConfigs env)[j]).key = st.formData.read ((fieldConfigs env)[j]).key) := by
  refine ⟨rfl, fieldConfigs_keys_nodup env, ?_, ?_, ?_, ?_⟩
  · exact List.pairwise_map.mp (fieldConfigs_keys_nodup env)
  · intro i j hi hj hne hkey
    exact hne (fieldConfigs_key_inj env i j hi hj hkey)
  · intro fd c hc
    exact errors_of_mem env fd c hc
  · intro st e i j hi hj hne
    rw [handleChange_formData, FormData.read_set,
      if_neg (fun hkey => hne (fieldConfigs_key_inj env i j hi hj hkey))]

end DynamicForm
